import Mathlib

/-!
# ITKTools: deformation field generator, cast-convert dispatch, slice extraction

A shallow embedding of `deformationfieldgenerator.cxx`, `castconvert3D.cxx` and
`extractslice.cxx`.

Coordinates (`double` in the source) are exact rationals; the vectors stored in the
field are narrowed to `float` as in the source.  Points, indices and sizes of a `Dimension`-dimensional image are
lists with one entry per axis.  The collaborators that live outside the
translated files (point file reader, image reader, kernel transform, writer) are
fields of an `Environment`; every call on them that the source makes is
recorded, in order, in the `trace` of the run.
-/

namespace ITKTools

/-! ## Data model -/

abbrev PointType := List ℚ
abbrev IndexType := List ℤ
abbrev SizeType := List ℕ
abbrev SpacingType := List ℚ
abbrev DeformationVectorType := List ℚ
abbrev PointSetType := List PointType

/-- An image region: start index and size, one entry per axis. -/
structure RegionType where
  Index : IndexType
  Size : SizeType
deriving DecidableEq, Repr

/-- Number of pixels of a region: the product of the per-axis sizes. -/
def RegionType.GetNumberOfPixels (region : RegionType) : ℕ :=
  region.Size.prod

/-- Axis-wise test of `ImageRegion::IsInside` on (index, start, size). -/
def IsInsideAxes : IndexType → IndexType → SizeType → Bool
  | [], [], [] => true
  | i :: is, b :: bs, s :: ss => decide (b ≤ i) && decide (i < b + (s : ℤ)) && IsInsideAxes is bs ss
  | _, _, _ => false

/-- An index lies in a region when on every axis `start ≤ index < start + size`. -/
def RegionType.IsInside (region : RegionType) (index : IndexType) : Bool :=
  IsInsideAxes index region.Index region.Size

/-- What an image reader reports after `UpdateOutputInformation`. -/
structure ImageInformation where
  Dimension : ℕ
  NumberOfComponents : ℕ
  Spacing : SpacingType
  Origin : PointType
  LargestPossibleRegion : RegionType
deriving DecidableEq, Repr

/-- Output of an image reader that has not been updated: unit spacing, zero origin,
empty region. -/
def InputImageReaderType.New (Dimension : ℕ) : ImageInformation :=
  { Dimension := Dimension
    NumberOfComponents := 1
    Spacing := List.replicate Dimension 1
    Origin := List.replicate Dimension 0
    LargestPossibleRegion := ⟨List.replicate Dimension 0, List.replicate Dimension 0⟩ }

/-- A point file reader as the generator sees it after calling `Update`:
whether `Update` raised, and what the three getters return afterwards. -/
structure IPPReaderType where
  UpdateThrows : Bool
  PointsAreIndices : Bool
  NumberOfPoints : ℕ
  Output : PointSetType
deriving DecidableEq, Repr

/-- The five kernel transform classes. -/
inductive KernelTransformType
  | TPSTransformType
  | TPSR2LOGRTransformType
  | VSTransformType
  | EBSTransformType
  | EBSRTransformType
deriving DecidableEq, Repr

/-- The deformation field: geometry plus the cells set so far, in the order of the
`iterator.Set` calls (the buffer is not initialised by `Allocate`). -/
structure DeformationFieldType where
  Spacing : SpacingType
  Origin : PointType
  LargestPossibleRegion : RegionType
  pixels : List (IndexType × DeformationVectorType)
deriving DecidableEq, Repr

/-- Exceptions of type `itk::ExceptionObject` that can leave the generator. -/
inductive ExceptionObject
  | generic (what : String)
  | imageReader (fileName : String)
  | kernelTransform
  | imageWriter (fileName : String)
deriving DecidableEq, Repr

/-- The calls and pipeline steps of one run of the generator, in program order. -/
inductive Stage
  | ipp1Update (raised : Bool)
  | ipp2Update (raised : Bool)
  | cardinalityCheck (nrofpoints1 nrofpoints2 : ℕ)
  | reader1UpdateOutputInformation (fileName : String)
  | reader2UpdateOutputInformation (fileName : String)
  | convertPointSet1 (converted : PointSetType)
  | convertPointSet2 (converted : PointSetType)
  | kernelNew (kernel : KernelTransformType)
  | ComputeWMatrix (kernel : KernelTransformType) (stiffness : ℚ)
      (sourceLandmarks targetLandmarks : PointSetType)
  | fieldGenerated (field : DeformationFieldType)
  | writerUpdate (fileName : String) (field : DeformationFieldType)
deriving DecidableEq, Repr

/-- How a call of the generator ends. -/
inductive Result
  | completed
  | threw (e : ExceptionObject)
  | loopOutOfFuel
deriving DecidableEq, Repr

/-- A run of the generator: what it did and how it ended. -/
structure Outcome where
  trace : List Stage
  result : Result
deriving DecidableEq, Repr

/-- The external collaborators of the generator. -/
structure Environment where
  /-- The point file reader for `Dimension`-dimensional points on a file name. -/
  ippReader : ℕ → String → IPPReaderType
  /-- The image header behind a file name; `none` when it cannot be read. -/
  imageInformation : String → Option ImageInformation
  /-- The kernel fit on (kernel, stiffness, source, target): `none` when
  `ComputeWMatrix` raises, otherwise the fitted `TransformPoint`. -/
  ComputeWMatrix : KernelTransformType → ℚ → PointSetType → PointSetType →
    Option (PointType → PointType)
  /-- Whether the field writer raises on a file name. -/
  writerThrows : String → Bool
  /-- Content of a `PointType` variable that was declared and never assigned. -/
  uninitializedPoint : PointType

/-! ## Library operations used by the generator -/

/-- Modelled from the spec: `vnl_math_rnd` (VXL, not under src/) is "rounding each
component to the nearest integer"; as in the portable VXL version a half is rounded away
from zero, `x >= 0 ? int(x + 0.5) : int(x - 0.5)`.  The range of `int` is not modelled. -/
def vnl_math_rnd (x : ℚ) : ℤ :=
  if 0 ≤ x then ⌊x + 1 / 2⌋ else ⌈x - 1 / 2⌉

/-- Modelled from the spec: `TransformIndexToPhysicalPoint` of an image whose direction
was never set (ITK, not under src/): `physical = origin + spacing ⊙ index`. -/
def TransformIndexToPhysicalPoint (spacing : SpacingType) (origin : PointType)
    (index : IndexType) : PointType :=
  List.zipWith (fun (o d : ℚ) => o + d) origin
    (List.zipWith (fun (s : ℚ) (i : ℤ) => s * (i : ℚ)) spacing index)

/-- Componentwise `pointout - pointin`. -/
def PointType.sub (pointout pointin : PointType) : DeformationVectorType :=
  List.zipWith (fun a b => a - b) pointout pointin

/-- Rounding to the nearest integer, a half to the even neighbour. -/
def roundHalfEven (y : ℚ) : ℤ :=
  if y - ⌊y⌋ < 1 / 2 then ⌊y⌋
  else if 1 / 2 < y - ⌊y⌋ then ⌊y⌋ + 1
  else if ⌊y⌋ % 2 = 0 then ⌊y⌋
  else ⌊y⌋ + 1

/-- The conversion of a `double` value to `float` (`DeformationVectorValueType`, line 170):
the nearest number with 24 significant bits and an exponent of at least -126, a tie
going to the even significand.  Overflow to infinity is not modelled. -/
def narrowToFloat (x : ℚ) : ℚ :=
  if x = 0 then 0
  else
    (roundHalfEven (x / (2 : ℚ) ^ (max (Int.log 2 |x|) (-126) - 23)) : ℚ) *
      (2 : ℚ) ^ (max (Int.log 2 |x|) (-126) - 23)

/-- The initialisation `DeformationVectorType vec = pointout - pointin` (line 388): the
difference of two points of `double` is stored in a vector of `float`. -/
def DeformationVectorType.ofDifference (pointout pointin : PointType) :
    DeformationVectorType :=
  (PointType.sub pointout pointin).map narrowToFloat

/-- The call `pointSet->GetPoint(j, &point)` on a `point` that holds `current`: the
j-th point when it exists, otherwise `point` is left as it was. -/
def GetPoint (pointSet : PointSetType) (j : ℕ) (current : PointType) : PointType :=
  match pointSet.get? j with
  | some p => p
  | none => current

/-- The call `pointSet->SetPoint(j, point)`: overwrite entry `j`, growing the container
(with unassigned points) when `j` is past its end. -/
def SetPoint (filler : PointType) (pointSet : PointSetType) (j : ℕ) (point : PointType) :
    PointSetType :=
  if j < pointSet.length then pointSet.set j point
  else pointSet ++ List.replicate (j - pointSet.length) filler ++ [point]

/-- Modelled from the spec: `itk::ImageRegionIteratorWithIndex` (ITK, not under src/), which
is to "visit every index in the grid's extent in lexicographic (row-major) order exactly
once".  The model follows the ITK class: a position index that `operator++` advances
between the begin and end index of the region, and the flag `m_Remaining`. -/
structure ImageRegionIteratorWithIndex where
  m_PositionIndex : IndexType
  m_BeginIndex : IndexType
  m_EndIndex : IndexType
  m_Remaining : Bool
deriving DecidableEq, Repr

/-- Modelled from the spec: the call `GoToBegin` on an iterator over `region` puts the
position on the start index of the region; something remains when the region has
pixels. -/
def ImageRegionIteratorWithIndex.GoToBegin (region : RegionType) :
    ImageRegionIteratorWithIndex :=
  { m_PositionIndex := region.Index
    m_BeginIndex := region.Index
    m_EndIndex := List.zipWith (fun (b : ℤ) (s : ℕ) => b + (s : ℤ)) region.Index region.Size
    m_Remaining := decide (0 < region.GetNumberOfPixels) }

/-- Modelled from the spec: the call `IsAtEnd` is true when nothing remains. -/
def ImageRegionIteratorWithIndex.IsAtEnd (it : ImageRegionIteratorWithIndex) : Bool :=
  !it.m_Remaining

/-- Modelled from the spec: the call `GetIndex` gives the index of the current position. -/
def ImageRegionIteratorWithIndex.GetIndex (it : ImageRegionIteratorWithIndex) : IndexType :=
  it.m_PositionIndex

/-- Modelled from the spec: the axis loop of `operator++` of the iterator: increment the
first axis; on reaching its end reset it to the begin index and carry to the next axis.
Returns the new position and `m_Remaining`. -/
def advance : IndexType → IndexType → IndexType → IndexType × Bool
  | p :: ps, b :: bs, e :: es =>
    if p + 1 < e then ((p + 1) :: ps, true)
    else ((b :: (advance ps bs es).1), (advance ps bs es).2)
  | ps, _, _ => (ps, false)

/-- Modelled from the spec: the operator `++iterator`. -/
def ImageRegionIteratorWithIndex.next (it : ImageRegionIteratorWithIndex) :
    ImageRegionIteratorWithIndex :=
  { it with
    m_PositionIndex := (advance it.m_PositionIndex it.m_BeginIndex it.m_EndIndex).1
    m_Remaining := (advance it.m_PositionIndex it.m_BeginIndex it.m_EndIndex).2 }

/-- The call `iterator.Set(vec)` at the cell `index`. -/
def DeformationFieldType.Set (deformationField : DeformationFieldType) (index : IndexType)
    (vec : DeformationVectorType) : DeformationFieldType :=
  { deformationField with pixels := deformationField.pixels ++ [(index, vec)] }

/-- The content of the cell `index`: the last vector set there, if any. -/
def DeformationFieldType.GetPixel (deformationField : DeformationFieldType) (index : IndexType) :
    Option DeformationVectorType :=
  (deformationField.pixels.reverse.find? (fun c => decide (c.1 = index))).map (fun c => c.2)

/-! ## DeformationFieldGenerator -/

/-- Lines 301-314 (and 324-337): the loop that converts index-valued points to
physical points with the geometry of a dummy image. -/
def convertIndexPoints (uninitialized : PointType) (spacing : SpacingType) (origin : PointType)
    (inputPointSet : PointSetType) (nrofpoints : ℕ) : PointSetType :=
  (List.range nrofpoints).foldl
    (fun tempPointSet j =>
      let point := GetPoint inputPointSet j uninitialized
      let index := point.map vnl_math_rnd
      let point := TransformIndexToPhysicalPoint spacing origin index
      SetPoint uninitialized tempPointSet j point)
    []

/-- Lines 340-364: the chain of string comparisons on the kernel name; `none` is the
final `else` branch. -/
def kernelOfName (kernelName : String) : Option KernelTransformType :=
  if kernelName = "TPS" then some KernelTransformType.TPSTransformType
  else if kernelName = "TPSR2LOGR" then some KernelTransformType.TPSR2LOGRTransformType
  else if kernelName = "VS" then some KernelTransformType.VSTransformType
  else if kernelName = "EBS" then some KernelTransformType.EBSTransformType
  else if kernelName = "EBSR" then some KernelTransformType.EBSRTransformType
  else none

/-- Lines 382-391: the loop `while ( !iterator.IsAtEnd() )`, with a bound on the number
of iterations; `none` when the bound is reached before the iterator is at its end. -/
def evaluationLoop (TransformPoint : PointType → PointType) :
    ℕ → ImageRegionIteratorWithIndex → DeformationFieldType → Option DeformationFieldType
  | 0, iterator, deformationField =>
    if iterator.IsAtEnd then some deformationField else none
  | fuel + 1, iterator, deformationField =>
    if iterator.IsAtEnd then some deformationField
    else
      let index := iterator.GetIndex
      let pointin :=
        TransformIndexToPhysicalPoint deformationField.Spacing deformationField.Origin index
      let pointout := TransformPoint pointin
      let vec := DeformationVectorType.ofDifference pointout pointin
      evaluationLoop TransformPoint fuel iterator.next (deformationField.Set index vec)

/-- Lines 371-391: define the field on the geometry of the first image and fill it.
The loop is given as many iterations as the field has cells. -/
def generateField (reader1Output : ImageInformation) (TransformPoint : PointType → PointType) :
    Option DeformationFieldType :=
  let deformationField : DeformationFieldType :=
    { Spacing := reader1Output.Spacing
      Origin := reader1Output.Origin
      LargestPossibleRegion := reader1Output.LargestPossibleRegion
      pixels := [] }
  evaluationLoop TransformPoint deformationField.LargestPossibleRegion.GetNumberOfPixels
    (ImageRegionIteratorWithIndex.GoToBegin deformationField.LargestPossibleRegion)
    deformationField

/-- Lines 294-315 (and 317-338): the point set handed on by one of the two
"Convert from index to point, if necessary" blocks. -/
def convertIfIndices (env : Environment) (ippReader : IPPReaderType)
    (readerOutput : ImageInformation) (nrofpoints : ℕ) : PointSetType :=
  if ippReader.PointsAreIndices then
    convertIndexPoints env.uninitializedPoint readerOutput.Spacing readerOutput.Origin
      ippReader.Output nrofpoints
  else ippReader.Output

/-- The conversions that the two blocks of lines 294-338 carry out, in order. -/
def conversionStages (env : Environment) (ipp1Reader ipp2Reader : IPPReaderType)
    (nrofpoints : ℕ) (reader1Output reader2Output : ImageInformation) : List Stage :=
  (if ipp1Reader.PointsAreIndices then
    [Stage.convertPointSet1 (convertIfIndices env ipp1Reader reader1Output nrofpoints)]
   else []) ++
  (if ipp2Reader.PointsAreIndices then
    [Stage.convertPointSet2 (convertIfIndices env ipp2Reader reader2Output nrofpoints)]
   else [])

/-- Lines 294-396 of `DeformationFieldGenerator`: conversion of the point sets, kernel
selection, fit, evaluation and writing, once the image information is there. -/
def DeformationFieldGenerator.fromImages (env : Environment)
    (ipp1Reader ipp2Reader : IPPReaderType) (nrofpoints : ℕ)
    (reader1Output reader2Output : ImageInformation)
    (outputImageFileName kernelName : String) (stiffness : ℚ) (trace : List Stage) : Outcome :=
  let inputPointSet1 := convertIfIndices env ipp1Reader reader1Output nrofpoints
  let inputPointSet2 := convertIfIndices env ipp2Reader reader2Output nrofpoints
  let trace := trace ++
    conversionStages env ipp1Reader ipp2Reader nrofpoints reader1Output reader2Output
  match kernelOfName kernelName with
  | none => ⟨trace, Result.threw (ExceptionObject.generic "Unknown kernel transform!.")⟩
  | some kernel =>
    let trace := trace ++
      [Stage.kernelNew kernel, Stage.ComputeWMatrix kernel stiffness inputPointSet1 inputPointSet2]
    match env.ComputeWMatrix kernel stiffness inputPointSet1 inputPointSet2 with
    | none => ⟨trace, Result.threw ExceptionObject.kernelTransform⟩
    | some TransformPoint =>
      match generateField reader1Output TransformPoint with
      | none => ⟨trace, Result.loopOutOfFuel⟩
      | some deformationField =>
        let trace := trace ++
          [Stage.fieldGenerated deformationField,
           Stage.writerUpdate outputImageFileName deformationField]
        if env.writerThrows outputImageFileName then
          ⟨trace, Result.threw (ExceptionObject.imageWriter outputImageFileName)⟩
        else ⟨trace, Result.completed⟩

/-- The function template `DeformationFieldGenerator< Dimension >` (lines 158-398).  An
exception of `ippNReader->Update()` is caught and printed, and the run goes on. -/
def DeformationFieldGenerator (env : Environment) (Dimension : ℕ)
    (inputImage1FileName inputImage2FileName inputPoints1FileName inputPoints2FileName
      outputImageFileName kernelName : String) (stiffness : ℚ) : Outcome :=
  let ipp1Reader := env.ippReader Dimension inputPoints1FileName
  let nrofpoints1 := ipp1Reader.NumberOfPoints
  let ipp2Reader := env.ippReader Dimension inputPoints2FileName
  let nrofpoints2 := ipp2Reader.NumberOfPoints
  let trace :=
    [Stage.ipp1Update ipp1Reader.UpdateThrows, Stage.ipp2Update ipp2Reader.UpdateThrows,
     Stage.cardinalityCheck nrofpoints1 nrofpoints2]
  if nrofpoints2 ≠ nrofpoints1 then
    ⟨trace, Result.threw (ExceptionObject.generic
      "Number of input points does not equal number of output points!")⟩
  else
    let nrofpoints := nrofpoints1
    let trace := trace ++ [Stage.reader1UpdateOutputInformation inputImage1FileName]
    match env.imageInformation inputImage1FileName with
    | none => ⟨trace, Result.threw (ExceptionObject.imageReader inputImage1FileName)⟩
    | some reader1Output =>
      if ipp2Reader.PointsAreIndices then
        if inputImage2FileName ≠ "" then
          let trace := trace ++ [Stage.reader2UpdateOutputInformation inputImage2FileName]
          match env.imageInformation inputImage2FileName with
          | none => ⟨trace, Result.threw (ExceptionObject.imageReader inputImage2FileName)⟩
          | some reader2Output =>
            DeformationFieldGenerator.fromImages env ipp1Reader ipp2Reader nrofpoints
              reader1Output reader2Output outputImageFileName kernelName stiffness trace
        else ⟨trace, Result.threw (ExceptionObject.generic "Second input image is needed!")⟩
      else
        DeformationFieldGenerator.fromImages env ipp1Reader ipp2Reader nrofpoints
          reader1Output (InputImageReaderType.New Dimension) outputImageFileName kernelName
          stiffness trace

/-! ## main of the deformation field generator -/

/-- Result of `CheckForRequiredArguments`. -/
inductive ReturnValue
  | PASSED
  | FAILED
  | HELPREQUESTED
deriving DecidableEq, Repr

/-- The command line as the parser presents it: the verdict on the required
arguments, and the value of each flag that was given. -/
structure CommandLineArgumentParser where
  CheckForRequiredArguments : ReturnValue
  in1 : Option String
  in2 : Option String
  ipp1 : Option String
  ipp2 : Option String
  out : Option String
  k : Option String
  s : Option ℚ
deriving DecidableEq, Repr

/-- The call `parser->GetCommandLineArgument( key, returnvalue )`: the variable keeps
its value when the flag was not given. -/
def GetCommandLineArgument {β : Type} (argument : Option β) (returnvalue : β) : β :=
  match argument with
  | some value => value
  | none => returnvalue

def EXIT_SUCCESS : ℤ := 0

def EXIT_FAILURE : ℤ := 1

/-- Modelled from the spec: `GetImageProperties` (CommandLineArgumentHelper.h, not under
src/) is the GridDescriptor Reader, `describe(path)`, which fails with a read error when
the path is unreadable.  Returns `(retgip, Dimension, NumberOfComponents)`; on failure
the two outputs keep the values passed in. -/
def GetImageProperties (env : Environment) (fileName : String)
    (Dimension NumberOfComponents : ℕ) : ℤ × ℕ × ℕ :=
  match env.imageInformation fileName with
  | none => (1, Dimension, NumberOfComponents)
  | some information => (0, information.Dimension, information.NumberOfComponents)

/-- What `main` did: the specializations it called, with their runs, and the exit
code (`none` when `main` does not return). -/
structure MainOutcome where
  invoked : List (ℕ × Outcome)
  exitCode : Option ℤ
deriving DecidableEq, Repr

/-- The macro `run(function, dim)` inside the `try` block of `main`, given what came
before it in the block: calls `function< dim >` when `Dimension == dim`.  Returns the
calls made so far, `supported`, and the exception or loop state that ended the
block early, if any. -/
def run (function : ℕ → Outcome) (Dimension dim : ℕ)
    (before : List (ℕ × Outcome) × Bool × Option Result) :
    List (ℕ × Outcome) × Bool × Option Result :=
  match before.2.2 with
  | some ended => (before.1, before.2.1, some ended)
  | none =>
    if Dimension = dim then
      match (function dim).result with
      | Result.completed => (before.1 ++ [(dim, function dim)], true, none)
      | ended => (before.1 ++ [(dim, function dim)], before.2.1, some ended)
    else before

/-- The function `main` of deformationfieldgenerator.cxx (lines 54-151). -/
def main (env : Environment) (parser : CommandLineArgumentParser) : MainOutcome :=
  match parser.CheckForRequiredArguments with
  | ReturnValue.FAILED => ⟨[], some EXIT_FAILURE⟩
  | ReturnValue.HELPREQUESTED => ⟨[], some EXIT_SUCCESS⟩
  | ReturnValue.PASSED =>
    let inputImage1FileName := GetCommandLineArgument parser.in1 ""
    let inputImage2FileName := GetCommandLineArgument parser.in2 ""
    let inputPoints1FileName := GetCommandLineArgument parser.ipp1 ""
    let inputPoints2FileName := GetCommandLineArgument parser.ipp2 ""
    let outputImageFileName := GetCommandLineArgument parser.out ""
    let kernelName := GetCommandLineArgument parser.k "TPS"
    let stiffness := GetCommandLineArgument parser.s 0
    let properties := GetImageProperties env inputImage1FileName 2 1
    let retgip := properties.1
    let Dimension := properties.2.1
    let NumberOfComponents := properties.2.2
    if retgip ≠ 0 then ⟨[], some 1⟩
    else if NumberOfComponents > 1 then ⟨[], some 1⟩
    else
      let function := fun dim =>
        DeformationFieldGenerator env dim inputImage1FileName inputImage2FileName
          inputPoints1FileName inputPoints2FileName outputImageFileName kernelName stiffness
      let block := run function Dimension 2 (run function Dimension 3 ([], false, none))
      match block.2.2 with
      | some (Result.threw _) => ⟨block.1, some 1⟩
      | some _ => ⟨block.1, none⟩
      | none =>
        if !block.2.1 then ⟨block.1, some 1⟩
        else ⟨block.1, some 0⟩

/-- The call of the generator that `main` makes for dimension `dim`. -/
def mainCall (env : Environment) (parser : CommandLineArgumentParser) (dim : ℕ) : Outcome :=
  DeformationFieldGenerator env dim (GetCommandLineArgument parser.in1 "")
    (GetCommandLineArgument parser.in2 "") (GetCommandLineArgument parser.ipp1 "")
    (GetCommandLineArgument parser.ipp2 "") (GetCommandLineArgument parser.out "")
    (GetCommandLineArgument parser.k "TPS") (GetCommandLineArgument parser.s 0)

/-- Exit code that `main` derives from the end of the one call it made. -/
def exitCodeOf : Result → Option ℤ
  | Result.completed => some 0
  | Result.threw _ => some 1
  | Result.loopOutOfFuel => none

/-! ## Iteration order of a region -/

/-- The index reached after `k` increments from the begin index: axis 0 runs fastest. -/
def indexOfRank : IndexType → SizeType → ℕ → IndexType
  | b :: bs, s :: ss, k => (b + ((k % s : ℕ) : ℤ)) :: indexOfRank bs ss (k / s)
  | bs, _, _ => bs

/-- The number of increments from the begin index after which an index is reached. -/
def rankOfIndex : IndexType → IndexType → SizeType → ℕ
  | i :: is, b :: bs, s :: ss => (i - b).toNat + s * rankOfIndex is bs ss
  | _, _, _ => 0

/-- The number of positions on the axes that have both a start index and a size. -/
def axesCount : IndexType → SizeType → ℕ
  | _ :: bs, s :: ss => s * axesCount bs ss
  | _, _ => 1

/-- The vector that the evaluation loop stores at `index`. -/
def displacementAt (spacing : SpacingType) (origin : PointType)
    (TransformPoint : PointType → PointType) (index : IndexType) : DeformationVectorType :=
  DeformationVectorType.ofDifference
    (TransformPoint (TransformIndexToPhysicalPoint spacing origin index))
    (TransformIndexToPhysicalPoint spacing origin index)

/-- The indices that the evaluation loop visits on a region, in order. -/
def visitedIndices (region : RegionType) : List IndexType :=
  (List.range (if 0 < region.GetNumberOfPixels then axesCount region.Index region.Size else 0)).map
    (indexOfRank region.Index region.Size)

/-! ## Observations on traces -/

/-- The stage is an index-to-physical conversion of a point set. -/
def Stage.isConversion : Stage → Bool
  | Stage.convertPointSet1 _ => true
  | Stage.convertPointSet2 _ => true
  | _ => false

/-- The stage is the kernel fit. -/
def Stage.isKernelFit : Stage → Bool
  | Stage.ComputeWMatrix _ _ _ _ => true
  | _ => false

/-- The stage is the call of the field writer. -/
def Stage.isWrite : Stage → Bool
  | Stage.writerUpdate _ _ => true
  | _ => false

/-! ## ITKToolsCastConvert3D (castconvert3D.cxx) -/

/-- The component types of `itktools::ComponentType` (`itk::ImageIOBase::IOComponentType`). -/
inductive ComponentType
  | UNKNOWNCOMPONENTTYPE
  | UCHAR
  | CHAR
  | USHORT
  | SHORT
  | UINT
  | INT
  | ULONG
  | LONG
  | FLOAT
  | DOUBLE
deriving DecidableEq, Repr

/-- A non-null `ITKToolsCastConvertBase *`: the template arguments of the instance of
`ITKToolsCastConvert< TOutputComponentType, VDimension >` it points to. -/
structure ITKToolsCastConvertBase where
  TOutputComponentType : ComponentType
  VDimension : ℕ
deriving DecidableEq, Repr

/-- Modelled from the spec: `ITKToolsCastConvert< T, VDimension >::New` (castconverthelpers.h,
not under src/) is a candidate factory that "self-reports whether it matches the requested
tag": as `ITKToolsExtractSlice::New` (extractslice.cxx, lines 92-99) it returns a new
instance when the requested component type is `T`, and here also the requested dimension is
`VDimension`, and 0 otherwise. -/
def ITKToolsCastConvert.New (T : ComponentType) (VDimension : ℕ)
    (outputComponentType : ComponentType) (dim : ℕ) : Option ITKToolsCastConvertBase :=
  if T = outputComponentType ∧ VDimension = dim then some ⟨T, VDimension⟩ else none

/-- The statement `if (!castConvert) castConvert = candidate;`. -/
def assignIfNull (castConvert candidate : Option ITKToolsCastConvertBase) :
    Option ITKToolsCastConvertBase :=
  match castConvert with
  | none => candidate
  | some instance_ => some instance_

/-- The function `ITKToolsCastConvert3D` (castconvert3D.cxx, lines 21-36); the result is the
value of the reference parameter `castConvert` on return. -/
def ITKToolsCastConvert3D (outputComponentType : ComponentType) (dim : ℕ)
    (castConvert : Option ITKToolsCastConvertBase) : Option ITKToolsCastConvertBase :=
  let castConvert := assignIfNull castConvert
    (ITKToolsCastConvert.New ComponentType.SHORT 3 outputComponentType dim)
  let castConvert := assignIfNull castConvert
    (ITKToolsCastConvert.New ComponentType.USHORT 3 outputComponentType dim)
  let castConvert := assignIfNull castConvert
    (ITKToolsCastConvert.New ComponentType.CHAR 3 outputComponentType dim)
  let castConvert := assignIfNull castConvert
    (ITKToolsCastConvert.New ComponentType.UCHAR 3 outputComponentType dim)
  let castConvert := assignIfNull castConvert
    (ITKToolsCastConvert.New ComponentType.INT 3 outputComponentType dim)
  let castConvert := assignIfNull castConvert
    (ITKToolsCastConvert.New ComponentType.UINT 3 outputComponentType dim)
  let castConvert := assignIfNull castConvert
    (ITKToolsCastConvert.New ComponentType.LONG 3 outputComponentType dim)
  let castConvert := assignIfNull castConvert
    (ITKToolsCastConvert.New ComponentType.ULONG 3 outputComponentType dim)
  let castConvert := assignIfNull castConvert
    (ITKToolsCastConvert.New ComponentType.FLOAT 3 outputComponentType dim)
  let castConvert := assignIfNull castConvert
    (ITKToolsCastConvert.New ComponentType.DOUBLE 3 outputComponentType dim)
  castConvert

/-- The candidates that `ITKToolsCastConvert3D` probes, in the order of the source. -/
def candidates3D : List (ComponentType × ℕ) :=
  [(ComponentType.SHORT, 3), (ComponentType.USHORT, 3), (ComponentType.CHAR, 3),
   (ComponentType.UCHAR, 3), (ComponentType.INT, 3), (ComponentType.UINT, 3),
   (ComponentType.LONG, 3), (ComponentType.ULONG, 3), (ComponentType.FLOAT, 3),
   (ComponentType.DOUBLE, 3)]


/-! ## A concrete setting for examples -/

/-- A 2D scalar image of 2 x 2 pixels, unit spacing, origin at zero. -/
def fixedImage : ImageInformation :=
  ⟨2, 1, [1, 1], [0, 0], ⟨[0, 0], [2, 2]⟩⟩

/-- A 2D scalar image of 3 x 2 pixels, spacing 2, origin (10, 20). -/
def movingImage : ImageInformation :=
  ⟨2, 1, [2, 2], [10, 20], ⟨[0, 0], [3, 2]⟩⟩

/-- A 3D scalar image of 4 x 4 x 4 pixels. -/
def volumeImage : ImageInformation :=
  ⟨3, 1, [1, 1, 1], [0, 0, 0], ⟨[0, 0, 0], [4, 4, 4]⟩⟩

/-- A small file system: four point files, four images, a fit that translates by the
offset of the first landmark pair, and a writer that succeeds. -/
def sampleEnv : Environment :=
  { ippReader := fun _ fileName =>
      if fileName = "fixed.txt" then ⟨false, false, 2, [[0, 0], [1, 1]]⟩
      else if fileName = "moving.txt" then ⟨false, false, 2, [[0, 1], [1, 2]]⟩
      else if fileName = "index.txt" then ⟨false, true, 2, [[0, 1], [2, 1]]⟩
      else if fileName = "three.txt" then ⟨false, false, 3, [[0, 0], [1, 1], [0, 1]]⟩
      else ⟨true, false, 0, []⟩
    imageInformation := fun fileName =>
      if fileName = "fixed.mhd" then some fixedImage
      else if fileName = "moving.mhd" then some movingImage
      else if fileName = "vector.mhd" then some ⟨2, 3, [1, 1], [0, 0], ⟨[0, 0], [2, 2]⟩⟩
      else if fileName = "time.mhd" then
        some ⟨4, 1, [1, 1, 1, 1], [0, 0, 0, 0], ⟨[0, 0, 0, 0], [2, 2, 2, 2]⟩⟩
      else none
    ComputeWMatrix := fun _ _ source target =>
      some (fun p => List.zipWith (fun x d => x + d) p
        (PointType.sub (target.headD []) (source.headD [])))
    writerThrows := fun _ => false
    uninitializedPoint := [] }

/-- A command line with the four required flags and nothing else. -/
def sampleParser (in1 ipp1 ipp2 out : String) : CommandLineArgumentParser :=
  ⟨ReturnValue.PASSED, some in1, none, some ipp1, some ipp2, some out, none, none⟩

/-! ## pxextractslice (extractslice.cxx) -/

/-- Modelled from the spec: what `itktools::GetImageProperties` (ITKToolsHelpers.h, not under
src/) finds in an image header; it is the GridDescriptor Reader, `describe(path)`, which
reports the scalar type, the dimensionality and a size with one entry per dimension. -/
structure ImageProperties where
  ComponentType : String
  Dimension : ℕ
  NumberOfComponents : ℕ
  imagesize : List ℕ
deriving DecidableEq, Repr

/-- The command line of pxextractslice as the parser presents it: the verdict on the
required arguments and the value of each flag that was given (`-sn` is read once as an
unsigned number and once as a string). -/
structure ExtractSliceParser where
  CheckForRequiredArguments : ReturnValue
  inFlag : Option String
  out : Option String
  pt : Option String
  sn : Option ℕ
  snString : Option String
  d : Option ℕ
deriving DecidableEq, Repr

/-- The class `ITKToolsExtractSliceBase` (lines 62-80) with the tag of the instantiated
`ITKToolsExtractSlice< TComponentType >`. -/
structure ITKToolsExtractSliceBase where
  TComponentType : ComponentType
  m_InputFileName : String
  m_OutputFileName : String
  m_Slicenumber : ℕ
  m_WhichDimension : ℕ
deriving DecidableEq, Repr

/-- The external collaborators of pxextractslice. -/
structure ExtractSliceEnvironment where
  /-- The header behind a file name; `none` when it cannot be read. -/
  imageProperties : String → Option ImageProperties
  /-- The function `itk::ImageIOBase::GetComponentTypeFromString`. -/
  GetComponentTypeFromString : String → ComponentType
  /-- The function `itksys::SystemTools::GetFilenameWithoutLastExtension`. -/
  GetFilenameWithoutLastExtension : String → String
  /-- The function `itksys::SystemTools::GetFilenameLastExtension`. -/
  GetFilenameLastExtension : String → String
  /-- Whether `Run` (lines 101-148: read, extract, write) raises on an instance. -/
  RunThrows : ITKToolsExtractSliceBase → Bool

/-- How `main` of pxextractslice ends: it returns a code, or it reads `imagesize` at an
index that is not below its length, after which the behaviour is undefined. -/
inductive ExtractSliceEnd
  | returned (code : ℤ)
  | imagesizeReadOutOfBounds (index length : ℕ)
deriving DecidableEq, Repr

/-- A run of `main` of pxextractslice: the instance on which `Run` was called, if any, and
how `main` ended. -/
structure ExtractSliceOutcome where
  ran : Option ITKToolsExtractSliceBase
  ended : ExtractSliceEnd
deriving DecidableEq, Repr

/-- Modelled from the spec: `itktools::GetImageProperties` (ITKToolsHelpers.h, not under
src/), the GridDescriptor Reader `describe(path)`, which "fails with a read error when the
path is unreadable".  Returns `retgip` and the properties; on failure the outputs keep the
values passed in. -/
def itktools.GetImageProperties (env : ExtractSliceEnvironment) (fileName : String)
    (initial : ImageProperties) : ℤ × ImageProperties :=
  match env.imageProperties fileName with
  | none => (1, initial)
  | some properties => (0, properties)

/-- Modelled from the spec: `itktools::IsType< T >( componentType )` (ITKToolsHelpers.h, not
under src/) is how a candidate "self-reports whether it matches the requested tag": the
requested component type is `T`. -/
def itktools.IsType (T componentType : ComponentType) : Bool :=
  decide (T = componentType)

/-- The function `ITKToolsExtractSlice< TComponentType >::New` (lines 92-99); a new
instance has the fields that the constructor of the base class sets (lines 65-71). -/
def ITKToolsExtractSlice.New (TComponentType componentType : ComponentType) :
    Option ITKToolsExtractSliceBase :=
  if itktools.IsType TComponentType componentType then some ⟨TComponentType, "", "", 0, 0⟩
  else none

/-- The statement `if (!extractSlice) extractSlice = candidate;`. -/
def assignIfNullSlice (extractSlice candidate : Option ITKToolsExtractSliceBase) :
    Option ITKToolsExtractSliceBase :=
  match extractSlice with
  | none => candidate
  | some instance_ => some instance_

/-- The value of `Dimension - 1` on `unsigned int`. -/
def DimensionMinusOne (Dimension : ℕ) : ℕ :=
  (Dimension + 4294967296 - 1) % 4294967296

/-- The function `main` of extractslice.cxx (lines 154-300). -/
def extractslice.main (env : ExtractSliceEnvironment) (parser : ExtractSliceParser) :
    ExtractSliceOutcome :=
  match parser.CheckForRequiredArguments with
  | ReturnValue.FAILED => ⟨none, ExtractSliceEnd.returned EXIT_FAILURE⟩
  | ReturnValue.HELPREQUESTED => ⟨none, ExtractSliceEnd.returned EXIT_SUCCESS⟩
  | ReturnValue.PASSED =>
    let inputFileName := GetCommandLineArgument parser.inFlag ""
    let described := itktools.GetImageProperties env inputFileName ⟨"short", 3, 1, [0, 0, 0]⟩
    let retgip := described.1
    let Dimension := described.2.Dimension
    let NumberOfComponents := described.2.NumberOfComponents
    let imagesize := described.2.imagesize
    if retgip ≠ 0 then ⟨none, ExtractSliceEnd.returned 1⟩
    else
      let ComponentType := GetCommandLineArgument parser.pt described.2.ComponentType
      if NumberOfComponents > 1 then ⟨none, ExtractSliceEnd.returned 1⟩
      else
        let slicenumber := GetCommandLineArgument parser.sn 0
        let slicenumberstring := GetCommandLineArgument parser.snString ""
        let which_dimension := GetCommandLineArgument parser.d 2
        match imagesize.get? which_dimension with
        | none =>
          ⟨none, ExtractSliceEnd.imagesizeReadOutOfBounds which_dimension imagesize.length⟩
        | some slices =>
          if slicenumber > slices then ⟨none, ExtractSliceEnd.returned 1⟩
          else if which_dimension > DimensionMinusOne Dimension then
            ⟨none, ExtractSliceEnd.returned 1⟩
          else
            let direction :=
              if which_dimension = 0 then "x" else if which_dimension = 1 then "y" else "z"
            let part1 := env.GetFilenameWithoutLastExtension inputFileName
            let part2 := env.GetFilenameLastExtension inputFileName
            let outputFileName := GetCommandLineArgument parser.out
              (part1 ++ "_slice_" ++ direction ++ "=" ++ slicenumberstring ++ part2)
            let componentType := env.GetComponentTypeFromString ComponentType
            let extractSlice := assignIfNullSlice none
              (ITKToolsExtractSlice.New ITKTools.ComponentType.UCHAR componentType)
            let extractSlice := assignIfNullSlice extractSlice
              (ITKToolsExtractSlice.New ITKTools.ComponentType.CHAR componentType)
            let extractSlice := assignIfNullSlice extractSlice
              (ITKToolsExtractSlice.New ITKTools.ComponentType.USHORT componentType)
            let extractSlice := assignIfNullSlice extractSlice
              (ITKToolsExtractSlice.New ITKTools.ComponentType.SHORT componentType)
            let extractSlice := assignIfNullSlice extractSlice
              (ITKToolsExtractSlice.New ITKTools.ComponentType.FLOAT componentType)
            match extractSlice with
            | none => ⟨none, ExtractSliceEnd.returned 1⟩
            | some created =>
              let configured : ITKToolsExtractSliceBase :=
                { created with
                  m_InputFileName := inputFileName
                  m_OutputFileName := outputFileName
                  m_WhichDimension := which_dimension
                  m_Slicenumber := slicenumber }
              if env.RunThrows configured then ⟨some configured, ExtractSliceEnd.returned 1⟩
              else ⟨some configured, ExtractSliceEnd.returned 0⟩

/-- A file system for pxextractslice: a 3D `short` image of 4 x 4 x 4 pixels, a 2D
`short` image of 4 x 4 pixels, and a `Run` that behaves as given. -/
def sliceEnv (RunThrows : ITKToolsExtractSliceBase → Bool) : ExtractSliceEnvironment :=
  { imageProperties := fun fileName =>
      if fileName = "volume.mhd" then some ⟨"short", 3, 1, [4, 4, 4]⟩
      else if fileName = "plane.mhd" then some ⟨"short", 2, 1, [4, 4]⟩
      else none
    GetComponentTypeFromString := fun name =>
      if name = "unsigned_char" then ComponentType.UCHAR
      else if name = "char" then ComponentType.CHAR
      else if name = "unsigned_short" then ComponentType.USHORT
      else if name = "short" then ComponentType.SHORT
      else if name = "float" then ComponentType.FLOAT
      else ComponentType.UNKNOWNCOMPONENTTYPE
    GetFilenameWithoutLastExtension := fun _ => "image"
    GetFilenameLastExtension := fun _ => ".mhd"
    RunThrows := RunThrows }

/-- A command line of pxextractslice with `-in`, `-sn` (as a number and as it was typed)
and, when given, `-d`. -/
def sliceParser (inputFileName : String) (slicenumber : ℕ) (slicenumberstring : String)
    (d : Option ℕ) : ExtractSliceParser :=
  ⟨ReturnValue.PASSED, some inputFileName, none, none, some slicenumber,
    some slicenumberstring, d⟩

/-! ## Theorems -/

/-- Past the argument check, with a readable scalar first image, `main` makes the one
call for the image dimension when it is 3 or 2 and no call otherwise. -/
theorem main_dispatch (env : Environment) (parser : CommandLineArgumentParser)
    (info : ImageInformation)
    (hp : parser.CheckForRequiredArguments = ReturnValue.PASSED)
    (hi : env.imageInformation (GetCommandLineArgument parser.in1 "") = some info)
    (hc : info.NumberOfComponents ≤ 1) :
    main env parser =
      if info.Dimension = 3 ∨ info.Dimension = 2 then
        ⟨[(info.Dimension, mainCall env parser info.Dimension)],
          exitCodeOf (mainCall env parser info.Dimension).result⟩
      else ⟨[], some 1⟩ := by
  have hc2 : ¬ (info.NumberOfComponents > 1) := by omega
  by_cases h3 : info.Dimension = 3
  · simp only [main, hp, GetImageProperties, hi, run, h3, mainCall]
    cases hr : (DeformationFieldGenerator env 3 (GetCommandLineArgument parser.in1 "")
      (GetCommandLineArgument parser.in2 "") (GetCommandLineArgument parser.ipp1 "")
      (GetCommandLineArgument parser.ipp2 "") (GetCommandLineArgument parser.out "")
      (GetCommandLineArgument parser.k "TPS") (GetCommandLineArgument parser.s 0)).result <;>
    simp [hc2, exitCodeOf, h3] at *
  · by_cases h2 : info.Dimension = 2
    · simp only [main, hp, GetImageProperties, hi, run, h2, mainCall]
      cases hr : (DeformationFieldGenerator env 2 (GetCommandLineArgument parser.in1 "")
        (GetCommandLineArgument parser.in2 "") (GetCommandLineArgument parser.ipp1 "")
        (GetCommandLineArgument parser.ipp2 "") (GetCommandLineArgument parser.out "")
        (GetCommandLineArgument parser.k "TPS") (GetCommandLineArgument parser.s 0)).result <;>
      simp [hc2, exitCodeOf, h2] at *
    · simp [main, hp, GetImageProperties, hi, run, h2, h3, hc2]

/-- Every run of `main` either makes no call, or passed the argument check, read a
scalar first image of dimension 3 or 2 and made the one call for that dimension. -/
theorem main_invoked_cases (env : Environment) (parser : CommandLineArgumentParser) :
    (main env parser).invoked = [] ∨
    ∃ dim info, (dim = 3 ∨ dim = 2) ∧
      parser.CheckForRequiredArguments = ReturnValue.PASSED ∧
      env.imageInformation (GetCommandLineArgument parser.in1 "") = some info ∧
      info.Dimension = dim ∧ info.NumberOfComponents ≤ 1 ∧
      (main env parser).invoked = [(dim, mainCall env parser dim)] ∧
      (main env parser).exitCode = exitCodeOf (mainCall env parser dim).result := by
  cases hp : parser.CheckForRequiredArguments with
  | FAILED => left; simp [main, hp]
  | HELPREQUESTED => left; simp [main, hp]
  | PASSED =>
    cases hi : env.imageInformation (GetCommandLineArgument parser.in1 "") with
    | none => left; simp [main, hp, GetImageProperties, hi]
    | some info =>
      by_cases hc : info.NumberOfComponents ≤ 1
      · rw [main_dispatch env parser info hp hi hc]
        by_cases hd : info.Dimension = 3 ∨ info.Dimension = 2
        · right
          exact ⟨info.Dimension, info, hd, rfl, rfl, rfl, hc, by simp [hd], by simp [hd]⟩
        · left; simp [hd]
      · left
        have hc2 : info.NumberOfComponents > 1 := by omega
        simp [main, hp, GetImageProperties, hi, hc2]

/-- A call of the generator that ends in an exception makes `main` return 1. -/
theorem main_exit_of_threw (env : Environment) (parser : CommandLineArgumentParser)
    (dim : ℕ) (o : Outcome) (e : ExceptionObject)
    (hmem : (dim, o) ∈ (main env parser).invoked) (hres : o.result = Result.threw e) :
    (main env parser).exitCode = some 1 := by
  rcases main_invoked_cases env parser with h | ⟨d, _, _, _, _, _, _, hinv, hexit⟩
  · rw [h] at hmem; simp at hmem
  · rw [hinv] at hmem
    simp only [List.mem_singleton, Prod.mk.injEq] at hmem
    rw [hexit, ← hmem.2, hres]; rfl

/-! ### The region iterator -/

theorem succ_mod_div_of_lt (k s : ℕ) (h : k % s + 1 < s) :
    (k + 1) % s = k % s + 1 ∧ (k + 1) / s = k / s := by
  have hs : 0 < s := by omega
  have := (Nat.div_mod_unique (a := k + 1) (c := k % s + 1) (d := k / s) hs).2
    ⟨by have := Nat.mod_add_div k s; omega, h⟩
  exact ⟨this.2, this.1⟩

theorem succ_mod_div_of_carry (k s : ℕ) (hs : 0 < s) (h : ¬ k % s + 1 < s) :
    (k + 1) % s = 0 ∧ (k + 1) / s = k / s + 1 := by
  have hlt := Nat.mod_lt k hs
  have := (Nat.div_mod_unique (a := k + 1) (c := 0) (d := k / s + 1) hs).2
    ⟨by have := Nat.mod_add_div k s; rw [Nat.mul_add]; omega, hs⟩
  exact ⟨this.2, this.1⟩

theorem indexOfRank_zero (b : IndexType) (s : SizeType) : indexOfRank b s 0 = b := by
  induction b generalizing s with
  | nil => cases s <;> rfl
  | cons b0 bs ih =>
    cases s with
    | nil => rfl
    | cons s0 ss => simp [indexOfRank, ih]

theorem advance_indexOfRank (b : IndexType) (s : SizeType) (k : ℕ)
    (hk : k + 1 < axesCount b s) :
    advance (indexOfRank b s k) b (List.zipWith (fun (b : ℤ) (s : ℕ) => b + (s : ℤ)) b s) =
      (indexOfRank b s (k + 1), true) := by
  induction b generalizing s k with
  | nil => cases s <;> simp [axesCount] at hk
  | cons b0 bs ih =>
    cases s with
    | nil => simp [axesCount] at hk
    | cons s0 ss =>
      simp only [axesCount] at hk
      have hs : 0 < s0 := by
        rcases Nat.eq_zero_or_pos s0 with h | h
        · rw [h] at hk; simp at hk
        · exact h
      simp only [indexOfRank, List.zipWith_cons_cons, advance]
      by_cases hlt : k % s0 + 1 < s0
      · obtain ⟨h1, h2⟩ := succ_mod_div_of_lt k s0 hlt
        have : b0 + ((k % s0 : ℕ) : ℤ) + 1 < b0 + (s0 : ℤ) := by omega
        rw [if_pos this, h1, h2]
        simp; omega
      · obtain ⟨h1, h2⟩ := succ_mod_div_of_carry k s0 hs hlt
        have : ¬ b0 + ((k % s0 : ℕ) : ℤ) + 1 < b0 + (s0 : ℤ) := by omega
        have hk2 : k / s0 + 1 < axesCount bs ss := by
          have := Nat.mod_add_div k s0
          have hmod := Nat.mod_lt k hs
          by_contra hcon
          have : axesCount bs ss ≤ k / s0 + 1 := by omega
          have := Nat.mul_le_mul_left s0 this
          rw [Nat.mul_add] at this
          omega
        rw [if_neg this, h1, h2, ih ss (k / s0) hk2]
        simp

theorem advance_last (b : IndexType) (s : SizeType) (k : ℕ)
    (hk : k + 1 = axesCount b s) :
    (advance (indexOfRank b s k) b (List.zipWith (fun (b : ℤ) (s : ℕ) => b + (s : ℤ)) b s)).2 = false := by
  induction b generalizing s k with
  | nil => cases s <;> simp [indexOfRank, advance]
  | cons b0 bs ih =>
    cases s with
    | nil => simp [indexOfRank, advance]
    | cons s0 ss =>
      simp only [axesCount] at hk
      have hs : 0 < s0 := by
        rcases Nat.eq_zero_or_pos s0 with h | h
        · rw [h] at hk; simp at hk
        · exact h
      simp only [indexOfRank, List.zipWith_cons_cons, advance]
      by_cases hlt : k % s0 + 1 < s0
      · exfalso
        obtain ⟨h1, _⟩ := succ_mod_div_of_lt k s0 hlt
        rw [hk] at h1
        simp at h1
      · obtain ⟨_, h2⟩ := succ_mod_div_of_carry k s0 hs hlt
        have : ¬ b0 + ((k % s0 : ℕ) : ℤ) + 1 < b0 + (s0 : ℤ) := by omega
        have hk2 : k / s0 + 1 = axesCount bs ss := by
          rw [← h2, hk, Nat.mul_div_cancel_left _ hs]
        rw [if_neg this]
        exact ih ss (k / s0) hk2

theorem evaluationLoop_at_end (TransformPoint : PointType → PointType) (fuel : ℕ)
    (iterator : ImageRegionIteratorWithIndex) (field : DeformationFieldType)
    (h : iterator.m_Remaining = false) :
    evaluationLoop TransformPoint fuel iterator field = some field := by
  cases fuel <;> simp [evaluationLoop, ImageRegionIteratorWithIndex.IsAtEnd, h]

/-- From rank `k`, the loop sets the `n` remaining cells in rank order and stops. -/
theorem evaluationLoop_from_rank (TransformPoint : PointType → PointType)
    (b : IndexType) (s : SizeType) :
    ∀ (n k fuel : ℕ) (field : DeformationFieldType),
      k + n = axesCount b s → 0 < n → n ≤ fuel →
      evaluationLoop TransformPoint fuel
        ⟨indexOfRank b s k, b, List.zipWith (fun (b : ℤ) (s : ℕ) => b + (s : ℤ)) b s, true⟩
        field =
      some { field with
        pixels := field.pixels ++ (List.range' k n).map (fun j =>
          (indexOfRank b s j,
            displacementAt field.Spacing field.Origin TransformPoint (indexOfRank b s j))) } := by
  intro n
  induction n with
  | zero => intro k fuel field _ h; omega
  | succ n ih =>
    intro k fuel field hk _ hfuel
    cases fuel with
    | zero => omega
    | succ fuel =>
      simp only [evaluationLoop, ImageRegionIteratorWithIndex.IsAtEnd, Bool.not_true,
        Bool.false_eq_true, if_false, ImageRegionIteratorWithIndex.GetIndex,
        ImageRegionIteratorWithIndex.next]
      rcases Nat.eq_zero_or_pos n with hn | hn
      · subst hn
        rw [evaluationLoop_at_end _ _ _ _ (advance_last b s k (by omega))]
        simp [DeformationFieldType.Set, displacementAt, List.range']
      · rw [advance_indexOfRank b s k (by omega)]
        rw [ih (k + 1) fuel _ (by omega) hn (by omega)]
        simp [DeformationFieldType.Set, displacementAt, List.range']

theorem axesCount_bounds (b : IndexType) (s : SizeType) (h : 0 < s.prod) :
    0 < axesCount b s ∧ axesCount b s ≤ s.prod := by
  induction b generalizing s with
  | nil =>
    cases s with
    | nil => simp [axesCount]
    | cons s0 ss => exact ⟨by simp [axesCount], by simp only [axesCount]; omega⟩
  | cons b0 bs ih =>
    cases s with
    | nil => simp [axesCount]
    | cons s0 ss =>
      simp only [List.prod_cons] at h
      simp only [axesCount, List.prod_cons]
      have h0 : 0 < s0 := Nat.pos_of_ne_zero (fun e => by rw [e] at h; simp at h)
      have h1 : 0 < ss.prod := Nat.pos_of_ne_zero (fun e => by rw [e] at h; simp at h)
      obtain ⟨ih1, ih2⟩ := ih ss h1
      exact ⟨Nat.mul_pos h0 ih1, Nat.mul_le_mul_left s0 ih2⟩

theorem axesCount_eq_prod (b : IndexType) (s : SizeType) (h : b.length = s.length) :
    axesCount b s = s.prod := by
  induction b generalizing s with
  | nil => cases s <;> simp_all [axesCount]
  | cons b0 bs ih =>
    cases s with
    | nil => simp at h
    | cons s0 ss =>
      simp only [List.length_cons, add_left_inj] at h
      simp [axesCount, ih ss h]

/-- The evaluation loop comes to its end as soon as it is given at least as many
iterations as the field has cells, and then has set the visited indices in order. -/
theorem evaluationLoop_from_begin (spacing : SpacingType) (origin : PointType)
    (region : RegionType) (TransformPoint : PointType → PointType) (fuel : ℕ)
    (hfuel : region.GetNumberOfPixels ≤ fuel) :
    evaluationLoop TransformPoint fuel (ImageRegionIteratorWithIndex.GoToBegin region)
        ⟨spacing, origin, region, []⟩ =
      some ⟨spacing, origin, region,
        (visitedIndices region).map (fun index =>
          (index, displacementAt spacing origin TransformPoint index))⟩ := by
  simp only [ImageRegionIteratorWithIndex.GoToBegin, visitedIndices]
  by_cases hN : 0 < region.GetNumberOfPixels
  · obtain ⟨h1, h2⟩ := axesCount_bounds region.Index region.Size hN
    have h := evaluationLoop_from_rank TransformPoint region.Index region.Size
      (axesCount region.Index region.Size) 0 fuel ⟨spacing, origin, region, []⟩
      (by omega) h1 (le_trans h2 hfuel)
    rw [indexOfRank_zero] at h
    simp only [hN, decide_True, if_true]
    rw [h]
    simp [List.range_eq_range', Function.comp_def]
  · rw [evaluationLoop_at_end _ _ _ _ (by simp [hN])]
    simp [hN]

theorem generateField_eq (reader1Output : ImageInformation)
    (TransformPoint : PointType → PointType) :
    generateField reader1Output TransformPoint =
      some ⟨reader1Output.Spacing, reader1Output.Origin, reader1Output.LargestPossibleRegion,
        (visitedIndices reader1Output.LargestPossibleRegion).map (fun index =>
          (index, displacementAt reader1Output.Spacing reader1Output.Origin TransformPoint
            index))⟩ :=
  evaluationLoop_from_begin _ _ _ _ _ (le_refl _)

theorem rankOfIndex_indexOfRank (b : IndexType) (s : SizeType) (k : ℕ)
    (hk : k < axesCount b s) : rankOfIndex (indexOfRank b s k) b s = k := by
  induction b generalizing s k with
  | nil => cases s <;> simp [axesCount] at hk <;> simp [indexOfRank, rankOfIndex, hk]
  | cons b0 bs ih =>
    cases s with
    | nil => simp [axesCount] at hk; simp [indexOfRank, rankOfIndex, hk]
    | cons s0 ss =>
      simp only [axesCount] at hk
      have hs : 0 < s0 := Nat.pos_of_ne_zero (fun e => by rw [e] at hk; simp at hk)
      have hk2 : k / s0 < axesCount bs ss := by
        rw [Nat.div_lt_iff_lt_mul hs, Nat.mul_comm]; exact hk
      simp only [indexOfRank, rankOfIndex, ih ss (k / s0) hk2]
      have := Nat.mod_add_div k s0
      simp only [add_sub_cancel_left, Int.toNat_ofNat]
      exact this

theorem isInside_indexOfRank (b : IndexType) (s : SizeType) (k : ℕ)
    (hlen : b.length = s.length) (hk : k < axesCount b s) :
    IsInsideAxes (indexOfRank b s k) b s = true := by
  induction b generalizing s k with
  | nil => cases s with
    | nil => rfl
    | cons s0 ss => simp at hlen
  | cons b0 bs ih =>
    cases s with
    | nil => simp at hlen
    | cons s0 ss =>
      simp only [List.length_cons, add_left_inj] at hlen
      simp only [axesCount] at hk
      have hs : 0 < s0 := Nat.pos_of_ne_zero (fun e => by rw [e] at hk; simp at hk)
      have hk2 : k / s0 < axesCount bs ss := by
        rw [Nat.div_lt_iff_lt_mul hs, Nat.mul_comm]; exact hk
      have hmod := Nat.mod_lt k hs
      simp only [indexOfRank, IsInsideAxes, ih ss (k / s0) hlen hk2, Bool.and_true,
        Bool.and_eq_true, decide_eq_true_eq]
      omega

theorem indexOfRank_rankOfIndex (index b : IndexType) (s : SizeType)
    (h : IsInsideAxes index b s = true) :
    rankOfIndex index b s < axesCount b s ∧ indexOfRank b s (rankOfIndex index b s) = index := by
  induction index generalizing b s with
  | nil =>
    cases b with
    | nil => cases s with
      | nil => simp [rankOfIndex, axesCount, indexOfRank]
      | cons s0 ss => simp [IsInsideAxes] at h
    | cons b0 bs => simp [IsInsideAxes] at h
  | cons i is ih =>
    cases b with
    | nil => simp [IsInsideAxes] at h
    | cons b0 bs =>
      cases s with
      | nil => simp [IsInsideAxes] at h
      | cons s0 ss =>
        simp only [IsInsideAxes, Bool.and_eq_true, decide_eq_true_eq] at h
        obtain ⟨⟨h1, h2⟩, h3⟩ := h
        obtain ⟨ih1, ih2⟩ := ih bs ss h3
        have hs : 0 < s0 := by omega
        have hd : (i - b0).toNat < s0 := by omega
        have hmod : ((i - b0).toNat + s0 * rankOfIndex is bs ss) % s0 = (i - b0).toNat := by
          rw [Nat.add_mul_mod_self_left]; exact Nat.mod_eq_of_lt hd
        have hdiv : ((i - b0).toNat + s0 * rankOfIndex is bs ss) / s0 = rankOfIndex is bs ss := by
          rw [Nat.add_mul_div_left _ _ hs, Nat.div_eq_of_lt hd]; simp
        refine ⟨?_, ?_⟩
        · simp only [rankOfIndex, axesCount]
          calc (i - b0).toNat + s0 * rankOfIndex is bs ss
              < s0 + s0 * rankOfIndex is bs ss := by omega
            _ = s0 * (rankOfIndex is bs ss + 1) := by ring
            _ ≤ s0 * axesCount bs ss := Nat.mul_le_mul_left s0 ih1
        · simp only [rankOfIndex, indexOfRank, hmod, hdiv, ih2]
          congr 1
          omega

theorem isInside_prod_pos (index b : IndexType) (s : SizeType)
    (h : IsInsideAxes index b s = true) : 0 < s.prod := by
  induction index generalizing b s with
  | nil =>
    cases b with
    | nil => cases s with
      | nil => simp
      | cons s0 ss => simp [IsInsideAxes] at h
    | cons b0 bs => simp [IsInsideAxes] at h
  | cons i is ih =>
    cases b with
    | nil => simp [IsInsideAxes] at h
    | cons b0 bs =>
      cases s with
      | nil => simp [IsInsideAxes] at h
      | cons s0 ss =>
        simp only [IsInsideAxes, Bool.and_eq_true, decide_eq_true_eq] at h
        obtain ⟨⟨h1, h2⟩, h3⟩ := h
        have := ih bs ss h3
        simp only [List.prod_cons]
        exact Nat.mul_pos (by omega) this

/-- The cells of a generated field, read back: a cell that was set in the loop holds
the vector computed for its index. -/
theorem getPixel_of_visited (field : DeformationFieldType) (visited : List IndexType)
    (g : IndexType → DeformationVectorType)
    (hpix : field.pixels = visited.map (fun index => (index, g index)))
    (index : IndexType) (hmem : index ∈ visited) :
    field.GetPixel index = some (g index) := by
  unfold DeformationFieldType.GetPixel
  cases hf : field.pixels.reverse.find? (fun c => decide (c.1 = index)) with
  | none =>
    rw [List.find?_eq_none] at hf
    have := hf (index, g index) (by rw [List.mem_reverse, hpix]; exact List.mem_map.2 ⟨index, hmem, rfl⟩)
    simp at this
  | some c =>
    have h1 := List.find?_some hf
    have h2 := List.mem_of_find?_eq_some hf
    rw [List.mem_reverse, hpix, List.mem_map] at h2
    obtain ⟨i, _, rfl⟩ := h2
    simp only [decide_eq_true_eq] at h1
    simp [h1]

theorem visitedIndices_nodup (region : RegionType) : (visitedIndices region).Nodup := by
  unfold visitedIndices
  refine List.Nodup.map_on ?_ (List.nodup_range _)
  intro x hx y hy hxy
  rw [List.mem_range] at hx hy
  split at hx
  · rename_i hN
    simp only [hN, if_true] at hy
    rw [← rankOfIndex_indexOfRank region.Index region.Size x hx,
      ← rankOfIndex_indexOfRank region.Index region.Size y hy, hxy]
  · omega

theorem mem_visitedIndices_of_isInside (region : RegionType) (index : IndexType)
    (h : region.IsInside index = true) : index ∈ visitedIndices region := by
  unfold RegionType.IsInside at h
  obtain ⟨h1, h2⟩ := indexOfRank_rankOfIndex index region.Index region.Size h
  have hN : 0 < region.GetNumberOfPixels := isInside_prod_pos _ _ _ h
  unfold visitedIndices
  rw [List.mem_map]
  exact ⟨rankOfIndex index region.Index region.Size, by simp [hN, h1], h2⟩

theorem isInside_of_mem_visitedIndices (region : RegionType) (index : IndexType)
    (hlen : region.Index.length = region.Size.length) (h : index ∈ visitedIndices region) :
    region.IsInside index = true := by
  unfold visitedIndices at h
  rw [List.mem_map] at h
  obtain ⟨k, hk, rfl⟩ := h
  rw [List.mem_range] at hk
  split at hk
  · exact isInside_indexOfRank _ _ _ hlen hk
  · omega

theorem length_visitedIndices (region : RegionType)
    (hlen : region.Index.length = region.Size.length) :
    (visitedIndices region).length = region.Size.prod := by
  unfold visitedIndices
  rw [List.length_map, List.length_range, axesCount_eq_prod _ _ hlen]
  unfold RegionType.GetNumberOfPixels
  split
  · rfl
  · omega


/-! ### The shape of a run -/

theorem conversionStages_no_write (env : Environment) (ipp1Reader ipp2Reader : IPPReaderType)
    (nrofpoints : ℕ) (reader1Output reader2Output : ImageInformation) :
    ∀ stage ∈ conversionStages env ipp1Reader ipp2Reader nrofpoints reader1Output reader2Output,
      stage.isWrite = false ∧ stage.isKernelFit = false := by
  intro stage h
  unfold conversionStages at h
  simp only [List.mem_append, List.mem_ite_nil_right, List.mem_singleton] at h
  rcases h with ⟨_, rfl⟩ | ⟨_, rfl⟩ <;> simp [Stage.isWrite, Stage.isKernelFit]

/-- The shape of every run of lines 294-396: either it ends without a fitted transform,
or it fits, evaluates the whole field and calls the writer as its last step. -/
theorem fromImages_shape (env : Environment) (ipp1Reader ipp2Reader : IPPReaderType)
    (nrofpoints : ℕ) (reader1Output reader2Output : ImageInformation)
    (outputImageFileName kernelName : String) (stiffness : ℚ) (trace : List Stage) :
    (kernelOfName kernelName = none ∧
      DeformationFieldGenerator.fromImages env ipp1Reader ipp2Reader nrofpoints reader1Output
        reader2Output outputImageFileName kernelName stiffness trace =
      ⟨trace ++ conversionStages env ipp1Reader ipp2Reader nrofpoints reader1Output
          reader2Output,
        Result.threw (ExceptionObject.generic "Unknown kernel transform!.")⟩) ∨
    (∃ kernel, kernelOfName kernelName = some kernel ∧
      env.ComputeWMatrix kernel stiffness
        (convertIfIndices env ipp1Reader reader1Output nrofpoints)
        (convertIfIndices env ipp2Reader reader2Output nrofpoints) = none ∧
      DeformationFieldGenerator.fromImages env ipp1Reader ipp2Reader nrofpoints reader1Output
        reader2Output outputImageFileName kernelName stiffness trace =
      ⟨trace ++ conversionStages env ipp1Reader ipp2Reader nrofpoints reader1Output
          reader2Output ++
          [Stage.kernelNew kernel, Stage.ComputeWMatrix kernel stiffness
            (convertIfIndices env ipp1Reader reader1Output nrofpoints)
            (convertIfIndices env ipp2Reader reader2Output nrofpoints)],
        Result.threw ExceptionObject.kernelTransform⟩) ∨
    (∃ kernel TransformPoint field, kernelOfName kernelName = some kernel ∧
      env.ComputeWMatrix kernel stiffness
        (convertIfIndices env ipp1Reader reader1Output nrofpoints)
        (convertIfIndices env ipp2Reader reader2Output nrofpoints) = some TransformPoint ∧
      generateField reader1Output TransformPoint = some field ∧
      DeformationFieldGenerator.fromImages env ipp1Reader ipp2Reader nrofpoints reader1Output
        reader2Output outputImageFileName kernelName stiffness trace =
      ⟨trace ++ conversionStages env ipp1Reader ipp2Reader nrofpoints reader1Output
          reader2Output ++
          [Stage.kernelNew kernel, Stage.ComputeWMatrix kernel stiffness
            (convertIfIndices env ipp1Reader reader1Output nrofpoints)
            (convertIfIndices env ipp2Reader reader2Output nrofpoints)] ++
          [Stage.fieldGenerated field, Stage.writerUpdate outputImageFileName field],
        if env.writerThrows outputImageFileName then
          Result.threw (ExceptionObject.imageWriter outputImageFileName)
        else Result.completed⟩) := by
  unfold DeformationFieldGenerator.fromImages
  simp only []
  cases hk : kernelOfName kernelName with
  | none => left; exact ⟨rfl, rfl⟩
  | some kernel =>
    right
    cases hc : env.ComputeWMatrix kernel stiffness
        (convertIfIndices env ipp1Reader reader1Output nrofpoints)
        (convertIfIndices env ipp2Reader reader2Output nrofpoints) with
    | none => left; exact ⟨kernel, rfl, hc, by simp [hc]⟩
    | some TransformPoint =>
      right
      refine ⟨kernel, TransformPoint, _, rfl, hc, generateField_eq reader1Output TransformPoint, ?_⟩
      simp only [hc, generateField_eq]
      split <;> rfl

/-- The six ways through lines 219-291 of the generator. -/
theorem DeformationFieldGenerator_shape (env : Environment) (Dimension : ℕ)
    (inputImage1FileName inputImage2FileName inputPoints1FileName inputPoints2FileName
      outputImageFileName kernelName : String) (stiffness : ℚ) :
    ((env.ippReader Dimension inputPoints2FileName).NumberOfPoints ≠
        (env.ippReader Dimension inputPoints1FileName).NumberOfPoints ∧
      DeformationFieldGenerator env Dimension inputImage1FileName inputImage2FileName
        inputPoints1FileName inputPoints2FileName outputImageFileName kernelName stiffness =
      ⟨[Stage.ipp1Update (env.ippReader Dimension inputPoints1FileName).UpdateThrows,
        Stage.ipp2Update (env.ippReader Dimension inputPoints2FileName).UpdateThrows,
        Stage.cardinalityCheck (env.ippReader Dimension inputPoints1FileName).NumberOfPoints
          (env.ippReader Dimension inputPoints2FileName).NumberOfPoints],
       Result.threw (ExceptionObject.generic
        "Number of input points does not equal number of output points!")⟩) ∨
    ((env.ippReader Dimension inputPoints2FileName).NumberOfPoints =
        (env.ippReader Dimension inputPoints1FileName).NumberOfPoints ∧
      env.imageInformation inputImage1FileName = none ∧
      DeformationFieldGenerator env Dimension inputImage1FileName inputImage2FileName
        inputPoints1FileName inputPoints2FileName outputImageFileName kernelName stiffness =
      ⟨[Stage.ipp1Update (env.ippReader Dimension inputPoints1FileName).UpdateThrows,
        Stage.ipp2Update (env.ippReader Dimension inputPoints2FileName).UpdateThrows,
        Stage.cardinalityCheck (env.ippReader Dimension inputPoints1FileName).NumberOfPoints
          (env.ippReader Dimension inputPoints2FileName).NumberOfPoints,
        Stage.reader1UpdateOutputInformation inputImage1FileName],
       Result.threw (ExceptionObject.imageReader inputImage1FileName)⟩) ∨
    ((env.ippReader Dimension inputPoints2FileName).NumberOfPoints =
        (env.ippReader Dimension inputPoints1FileName).NumberOfPoints ∧
      ∃ reader1Output, env.imageInformation inputImage1FileName = some reader1Output ∧
      (((env.ippReader Dimension inputPoints2FileName).PointsAreIndices = true ∧
        inputImage2FileName = "" ∧
        DeformationFieldGenerator env Dimension inputImage1FileName inputImage2FileName
          inputPoints1FileName inputPoints2FileName outputImageFileName kernelName stiffness =
        ⟨[Stage.ipp1Update (env.ippReader Dimension inputPoints1FileName).UpdateThrows,
          Stage.ipp2Update (env.ippReader Dimension inputPoints2FileName).UpdateThrows,
          Stage.cardinalityCheck (env.ippReader Dimension inputPoints1FileName).NumberOfPoints
            (env.ippReader Dimension inputPoints2FileName).NumberOfPoints,
          Stage.reader1UpdateOutputInformation inputImage1FileName],
         Result.threw (ExceptionObject.generic "Second input image is needed!")⟩) ∨
       ((env.ippReader Dimension inputPoints2FileName).PointsAreIndices = true ∧
        inputImage2FileName ≠ "" ∧ env.imageInformation inputImage2FileName = none ∧
        DeformationFieldGenerator env Dimension inputImage1FileName inputImage2FileName
          inputPoints1FileName inputPoints2FileName outputImageFileName kernelName stiffness =
        ⟨[Stage.ipp1Update (env.ippReader Dimension inputPoints1FileName).UpdateThrows,
          Stage.ipp2Update (env.ippReader Dimension inputPoints2FileName).UpdateThrows,
          Stage.cardinalityCheck (env.ippReader Dimension inputPoints1FileName).NumberOfPoints
            (env.ippReader Dimension inputPoints2FileName).NumberOfPoints,
          Stage.reader1UpdateOutputInformation inputImage1FileName,
          Stage.reader2UpdateOutputInformation inputImage2FileName],
         Result.threw (ExceptionObject.imageReader inputImage2FileName)⟩) ∨
       ((env.ippReader Dimension inputPoints2FileName).PointsAreIndices = true ∧
        inputImage2FileName ≠ "" ∧
        ∃ reader2Output, env.imageInformation inputImage2FileName = some reader2Output ∧
        DeformationFieldGenerator env Dimension inputImage1FileName inputImage2FileName
          inputPoints1FileName inputPoints2FileName outputImageFileName kernelName stiffness =
        DeformationFieldGenerator.fromImages env (env.ippReader Dimension inputPoints1FileName)
          (env.ippReader Dimension inputPoints2FileName)
          (env.ippReader Dimension inputPoints1FileName).NumberOfPoints reader1Output
          reader2Output outputImageFileName kernelName stiffness
          [Stage.ipp1Update (env.ippReader Dimension inputPoints1FileName).UpdateThrows,
           Stage.ipp2Update (env.ippReader Dimension inputPoints2FileName).UpdateThrows,
           Stage.cardinalityCheck (env.ippReader Dimension inputPoints1FileName).NumberOfPoints
             (env.ippReader Dimension inputPoints2FileName).NumberOfPoints,
           Stage.reader1UpdateOutputInformation inputImage1FileName,
           Stage.reader2UpdateOutputInformation inputImage2FileName]) ∨
       ((env.ippReader Dimension inputPoints2FileName).PointsAreIndices = false ∧
        DeformationFieldGenerator env Dimension inputImage1FileName inputImage2FileName
          inputPoints1FileName inputPoints2FileName outputImageFileName kernelName stiffness =
        DeformationFieldGenerator.fromImages env (env.ippReader Dimension inputPoints1FileName)
          (env.ippReader Dimension inputPoints2FileName)
          (env.ippReader Dimension inputPoints1FileName).NumberOfPoints reader1Output
          (InputImageReaderType.New Dimension) outputImageFileName kernelName stiffness
          [Stage.ipp1Update (env.ippReader Dimension inputPoints1FileName).UpdateThrows,
           Stage.ipp2Update (env.ippReader Dimension inputPoints2FileName).UpdateThrows,
           Stage.cardinalityCheck (env.ippReader Dimension inputPoints1FileName).NumberOfPoints
             (env.ippReader Dimension inputPoints2FileName).NumberOfPoints,
           Stage.reader1UpdateOutputInformation inputImage1FileName]))) := by
  unfold DeformationFieldGenerator
  simp only []
  by_cases hn : (env.ippReader Dimension inputPoints2FileName).NumberOfPoints =
        (env.ippReader Dimension inputPoints1FileName).NumberOfPoints
  · right
    cases h1 : env.imageInformation inputImage1FileName with
    | none => left; simp [hn]
    | some reader1Output =>
      right
      refine ⟨hn, reader1Output, rfl, ?_⟩
      cases hidx : (env.ippReader Dimension inputPoints2FileName).PointsAreIndices with
      | false => right; right; right; simp [hn]
      | true =>
        by_cases h2 : inputImage2FileName = ""
        · left; simp [hn, h2]
        · right
          cases hi2 : env.imageInformation inputImage2FileName with
          | none => left; simp [hn, h2]
          | some reader2Output => right; left; simp [hn, h2]
  · left; simp [hn]

/-! ### The claims -/

/-- C1: when the two point files report different point counts, the generator raises the
point-count exception right after the cardinality check: its trace holds no
index-to-physical conversion, no kernel fit and no writer call, and a `main` that made
this call returns 1. -/
theorem C1_point_count_mismatch_fails_fast (env : Environment) (Dimension : ℕ)
    (inputImage1FileName inputImage2FileName inputPoints1FileName inputPoints2FileName
      outputImageFileName kernelName : String) (stiffness : ℚ)
    (h : (env.ippReader Dimension inputPoints1FileName).NumberOfPoints ≠
      (env.ippReader Dimension inputPoints2FileName).NumberOfPoints) :
    (DeformationFieldGenerator env Dimension inputImage1FileName inputImage2FileName
      inputPoints1FileName inputPoints2FileName outputImageFileName kernelName
      stiffness).result =
      Result.threw (ExceptionObject.generic
        "Number of input points does not equal number of output points!") ∧
    (∀ stage ∈ (DeformationFieldGenerator env Dimension inputImage1FileName
        inputImage2FileName inputPoints1FileName inputPoints2FileName outputImageFileName
        kernelName stiffness).trace,
      stage.isConversion = false ∧ stage.isKernelFit = false ∧ stage.isWrite = false) ∧
    (∀ parser : CommandLineArgumentParser,
      (Dimension, DeformationFieldGenerator env Dimension inputImage1FileName
        inputImage2FileName inputPoints1FileName inputPoints2FileName outputImageFileName
        kernelName stiffness) ∈ (main env parser).invoked →
      (main env parser).exitCode = some 1) := by
  have hne : ¬ (env.ippReader Dimension inputPoints2FileName).NumberOfPoints =
      (env.ippReader Dimension inputPoints1FileName).NumberOfPoints := fun e => h e.symm
  have hres : (DeformationFieldGenerator env Dimension inputImage1FileName
      inputImage2FileName inputPoints1FileName inputPoints2FileName outputImageFileName
      kernelName stiffness).result =
      Result.threw (ExceptionObject.generic
        "Number of input points does not equal number of output points!") := by
    simp [DeformationFieldGenerator, hne]
  refine ⟨hres, ?_, fun parser hmem => main_exit_of_threw env parser _ _ _ hmem hres⟩
  intro stage hstage
  simp only [DeformationFieldGenerator, ne_eq, hne, not_false_eq_true, if_true,
    List.mem_cons, List.mem_singleton, List.not_mem_nil, or_false] at hstage
  rcases hstage with rfl | rfl | rfl <;> simp [Stage.isConversion, Stage.isKernelFit, Stage.isWrite]

/-- C1 witness: a file of two points against a file of three points, through `main`. -/
theorem C1_point_count_mismatch_witness :
    (sampleEnv.ippReader 2 "fixed.txt").NumberOfPoints ≠
      (sampleEnv.ippReader 2 "three.txt").NumberOfPoints ∧
    (main sampleEnv (sampleParser "fixed.mhd" "fixed.txt" "three.txt" "out.mhd")).exitCode =
      some 1 :=
  ⟨by decide,
   (C1_point_count_mismatch_fails_fast sampleEnv 2 "fixed.mhd" "" "fixed.txt" "three.txt"
      "out.mhd" "TPS" 0 (by decide)).2.2
      (sampleParser "fixed.mhd" "fixed.txt" "three.txt" "out.mhd") (by decide)⟩

theorem mainCall_readable (env : Environment) (parser : CommandLineArgumentParser) (dim : ℕ)
    (hrun : (dim, mainCall env parser dim) ∈ (main env parser).invoked) :
    ∃ info, env.imageInformation (GetCommandLineArgument parser.in1 "") = some info ∧
      (main env parser).exitCode = exitCodeOf (mainCall env parser dim).result := by
  rcases main_invoked_cases env parser with h | ⟨d, info, _, _, hi, _, _, hinv, hexit⟩
  · rw [h] at hrun; simp at hrun
  · rw [hinv] at hrun
    simp only [List.mem_singleton, Prod.mk.injEq] at hrun
    rw [hrun.1]
    exact ⟨info, hi, hexit⟩

theorem fromImages_result_ne_second (env : Environment) (ipp1Reader ipp2Reader : IPPReaderType)
    (nrofpoints : ℕ) (reader1Output reader2Output : ImageInformation)
    (outputImageFileName kernelName : String) (stiffness : ℚ) (trace : List Stage) :
    (DeformationFieldGenerator.fromImages env ipp1Reader ipp2Reader nrofpoints reader1Output
      reader2Output outputImageFileName kernelName stiffness trace).result ≠
      Result.threw (ExceptionObject.generic "Second input image is needed!") := by
  rcases fromImages_shape env ipp1Reader ipp2Reader nrofpoints reader1Output reader2Output
    outputImageFileName kernelName stiffness trace with
    ⟨_, h⟩ | ⟨_, _, _, h⟩ | ⟨_, _, _, _, _, _, h⟩ <;> rw [h]
  · simp only [ne_eq, Result.threw.injEq, ExceptionObject.generic.injEq]; decide
  · simp
  · simp only []; split <;> simp

theorem fromImages_trace_mem (env : Environment) (ipp1Reader ipp2Reader : IPPReaderType)
    (nrofpoints : ℕ) (reader1Output reader2Output : ImageInformation)
    (outputImageFileName kernelName : String) (stiffness : ℚ) (trace : List Stage)
    (stage : Stage)
    (h : stage ∈ (DeformationFieldGenerator.fromImages env ipp1Reader ipp2Reader nrofpoints
      reader1Output reader2Output outputImageFileName kernelName stiffness trace).trace) :
    stage ∈ trace ∨
    stage ∈ conversionStages env ipp1Reader ipp2Reader nrofpoints reader1Output reader2Output ∨
    (∃ kernel, stage = Stage.kernelNew kernel) ∨
    (∃ kernel, stage = Stage.ComputeWMatrix kernel stiffness
        (convertIfIndices env ipp1Reader reader1Output nrofpoints)
        (convertIfIndices env ipp2Reader reader2Output nrofpoints)) ∨
    (∃ field, stage = Stage.fieldGenerated field) ∨
    (∃ field, stage = Stage.writerUpdate outputImageFileName field) := by
  rcases fromImages_shape env ipp1Reader ipp2Reader nrofpoints reader1Output reader2Output
    outputImageFileName kernelName stiffness trace with
    ⟨_, e⟩ | ⟨k, _, _, e⟩ | ⟨k, T, f, _, _, _, e⟩ <;> rw [e] at h <;>
    simp only [List.mem_append, List.mem_cons, List.mem_singleton, List.not_mem_nil,
      or_false] at h
  · rcases h with h | h
    · exact Or.inl h
    · exact Or.inr (Or.inl h)
  · rcases h with (h | h) | h | h
    · exact Or.inl h
    · exact Or.inr (Or.inl h)
    · exact Or.inr (Or.inr (Or.inl ⟨k, h⟩))
    · exact Or.inr (Or.inr (Or.inr (Or.inl ⟨k, h⟩)))
  · rcases h with ((h | h) | h | h) | h | h
    · exact Or.inl h
    · exact Or.inr (Or.inl h)
    · exact Or.inr (Or.inr (Or.inl ⟨k, h⟩))
    · exact Or.inr (Or.inr (Or.inr (Or.inl ⟨k, h⟩)))
    · exact Or.inr (Or.inr (Or.inr (Or.inr (Or.inl ⟨f, h⟩))))
    · exact Or.inr (Or.inr (Or.inr (Or.inr (Or.inr ⟨f, h⟩))))

theorem mem_conversionStages (env : Environment) (ipp1Reader ipp2Reader : IPPReaderType)
    (nrofpoints : ℕ) (reader1Output reader2Output : ImageInformation) (stage : Stage)
    (h : stage ∈ conversionStages env ipp1Reader ipp2Reader nrofpoints reader1Output
      reader2Output) :
    (ipp1Reader.PointsAreIndices = true ∧
      stage = Stage.convertPointSet1
        (convertIndexPoints env.uninitializedPoint reader1Output.Spacing reader1Output.Origin
          ipp1Reader.Output nrofpoints)) ∨
    (ipp2Reader.PointsAreIndices = true ∧
      stage = Stage.convertPointSet2
        (convertIndexPoints env.uninitializedPoint reader2Output.Spacing reader2Output.Origin
          ipp2Reader.Output nrofpoints)) := by
  simp only [conversionStages, List.mem_append, List.mem_ite_nil_right, List.mem_singleton] at h
  rcases h with ⟨h1, rfl⟩ | ⟨h1, rfl⟩
  · left; exact ⟨h1, by simp [convertIfIndices, h1]⟩
  · right; exact ⟨h1, by simp [convertIfIndices, h1]⟩

theorem vnl_math_rnd_nearest (x : ℚ) : |((vnl_math_rnd x : ℤ) : ℚ) - x| ≤ 1 / 2 := by
  unfold vnl_math_rnd
  split
  · have h1 := Int.floor_le (x + 1 / 2)
    have h2 := Int.lt_floor_add_one (x + 1 / 2)
    rw [abs_le]; constructor <;> linarith
  · have h1 := Int.le_ceil (x - 1 / 2)
    have h2 := Int.ceil_lt_add_one (x - 1 / 2)
    rw [abs_le]; constructor <;> linarith

theorem convertIndexPoints_take (uninitialized : PointType) (spacing : SpacingType)
    (origin : PointType) (inputPointSet : PointSetType) (n : ℕ)
    (hn : n ≤ inputPointSet.length) :
    convertIndexPoints uninitialized spacing origin inputPointSet n =
      (inputPointSet.take n).map (fun point =>
        TransformIndexToPhysicalPoint spacing origin (point.map vnl_math_rnd)) := by
  induction n with
  | zero => simp [convertIndexPoints]
  | succ n ih =>
    have hlt : n < inputPointSet.length := by omega
    have ih2 := ih (by omega)
    unfold convertIndexPoints at ih2 ⊢
    rw [List.range_succ, List.foldl_append, ih2]
    simp only [List.foldl_cons, List.foldl_nil, GetPoint, SetPoint, List.length_map,
      List.length_take, min_eq_left (Nat.le_of_lt hlt), lt_self_iff_false, if_false,
      Nat.sub_self, List.replicate_zero, List.append_nil]
    rw [List.take_succ, List.map_append]
    simp [List.get?_eq_getElem?, List.getElem?_eq_getElem hlt]

theorem convertIndexPoints_eq_map (uninitialized : PointType) (spacing : SpacingType)
    (origin : PointType) (inputPointSet : PointSetType) :
    convertIndexPoints uninitialized spacing origin inputPointSet inputPointSet.length =
      inputPointSet.map (fun point =>
        TransformIndexToPhysicalPoint spacing origin (point.map vnl_math_rnd)) := by
  rw [convertIndexPoints_take _ _ _ _ _ (le_refl _), List.take_length]

/-- C2: the claim that an unreadable point file is fatal fails on the code, which catches
the exception of `Update`, prints it and goes on.  With two unreadable point files (both
readers then report 0 points) the run passes the cardinality check, calls the kernel fit
and the writer, completes, and `main` returns 0. -/
theorem C2_unreadable_point_files_run_on :
    (sampleEnv.ippReader 2 "missing1.txt").UpdateThrows = true ∧
    (sampleEnv.ippReader 2 "missing2.txt").UpdateThrows = true ∧
    Stage.cardinalityCheck 0 0 ∈
      (DeformationFieldGenerator sampleEnv 2 "fixed.mhd" "" "missing1.txt" "missing2.txt"
        "out.mhd" "TPS" 0).trace ∧
    (∃ stage ∈ (DeformationFieldGenerator sampleEnv 2 "fixed.mhd" "" "missing1.txt"
        "missing2.txt" "out.mhd" "TPS" 0).trace, stage.isKernelFit = true) ∧
    (∃ stage ∈ (DeformationFieldGenerator sampleEnv 2 "fixed.mhd" "" "missing1.txt"
        "missing2.txt" "out.mhd" "TPS" 0).trace, stage.isWrite = true) ∧
    (DeformationFieldGenerator sampleEnv 2 "fixed.mhd" "" "missing1.txt" "missing2.txt"
        "out.mhd" "TPS" 0).result = Result.completed ∧
    (main sampleEnv (sampleParser "fixed.mhd" "missing1.txt" "missing2.txt" "out.mhd")).exitCode
      = some 0 := by
  refine ⟨by decide, by decide, by decide, by decide, by decide, by decide, by decide⟩


/-- C3: for a run that `main` makes with equal point counts, the exception "Second input
image is needed!" is raised exactly when the second point list is tagged as indices and
the second image file name is empty; `main` then returns 1 and nothing was converted,
fitted or written.  A conversion of the second list always uses the image read from the
second file name (never the first image), and with a second list in physical coordinates
the second reader is never updated and the run does not depend on the `-in2` flag. -/
theorem C3_second_image_needed_exactly_for_indices (env : Environment)
    (parser : CommandLineArgumentParser) (dim : ℕ)
    (hrun : (dim, mainCall env parser dim) ∈ (main env parser).invoked)
    (hcount : (env.ippReader dim (GetCommandLineArgument parser.ipp1 "")).NumberOfPoints =
      (env.ippReader dim (GetCommandLineArgument parser.ipp2 "")).NumberOfPoints) :
    ((mainCall env parser dim).result =
        Result.threw (ExceptionObject.generic "Second input image is needed!") ↔
      ((env.ippReader dim (GetCommandLineArgument parser.ipp2 "")).PointsAreIndices = true ∧
        GetCommandLineArgument parser.in2 "" = "")) ∧
    ((mainCall env parser dim).result =
        Result.threw (ExceptionObject.generic "Second input image is needed!") →
      (main env parser).exitCode = some 1 ∧
      ∀ stage ∈ (mainCall env parser dim).trace,
        stage.isConversion = false ∧ stage.isKernelFit = false ∧ stage.isWrite = false) ∧
    (∀ converted, Stage.convertPointSet2 converted ∈ (mainCall env parser dim).trace →
      ∃ reader2Output, GetCommandLineArgument parser.in2 "" ≠ "" ∧
        env.imageInformation (GetCommandLineArgument parser.in2 "") = some reader2Output ∧
        converted = convertIndexPoints env.uninitializedPoint reader2Output.Spacing
          reader2Output.Origin
          (env.ippReader dim (GetCommandLineArgument parser.ipp2 "")).Output
          (env.ippReader dim (GetCommandLineArgument parser.ipp1 "")).NumberOfPoints) ∧
    ((env.ippReader dim (GetCommandLineArgument parser.ipp2 "")).PointsAreIndices = false →
      (∀ fileName,
        Stage.reader2UpdateOutputInformation fileName ∉ (mainCall env parser dim).trace) ∧
      ∀ other : Option String,
        mainCall env { parser with in2 := other } dim = mainCall env parser dim) := by
  obtain ⟨info, hinfo, hexit⟩ := mainCall_readable env parser dim hrun
  have hshape := DeformationFieldGenerator_shape env dim (GetCommandLineArgument parser.in1 "")
    (GetCommandLineArgument parser.in2 "") (GetCommandLineArgument parser.ipp1 "")
    (GetCommandLineArgument parser.ipp2 "") (GetCommandLineArgument parser.out "")
    (GetCommandLineArgument parser.k "TPS") (GetCommandLineArgument parser.s 0)
  have hindep : (env.ippReader dim (GetCommandLineArgument parser.ipp2 "")).PointsAreIndices
      = false → ∀ other : Option String,
        mainCall env { parser with in2 := other } dim = mainCall env parser dim := by
    intro hidx other
    simp [mainCall, DeformationFieldGenerator, hidx]
  rw [hexit]
  unfold mainCall at *
  rcases hshape with ⟨hne, _⟩ | ⟨_, hnone, _⟩ | ⟨_, info1, hi1, hcases⟩
  · exact absurd hcount.symm hne
  · rw [hinfo] at hnone; simp at hnone
  · rcases hcases with ⟨hidx, h2, e⟩ | ⟨hidx, h2, hi2, e⟩ | ⟨hidx, h2, info2, hi2, e⟩ | ⟨hidx, e⟩
    · rw [e]
      refine ⟨by simp [hidx, h2], fun _ => ⟨rfl, ?_⟩, ?_, ?_⟩
      · intro stage hs
        simp only [List.mem_cons, List.mem_singleton, List.not_mem_nil, or_false] at hs
        rcases hs with rfl | rfl | rfl | rfl <;>
          simp [Stage.isConversion, Stage.isKernelFit, Stage.isWrite]
      · intro converted hc; simp at hc
      · intro hf; rw [hidx] at hf; simp at hf
    · rw [e]
      refine ⟨by simp [h2], fun hr => by simp at hr, ?_, ?_⟩
      · intro converted hc; simp at hc
      · intro hf; rw [hidx] at hf; simp at hf
    · rw [e]
      have hne := fromImages_result_ne_second env
        (env.ippReader dim (GetCommandLineArgument parser.ipp1 ""))
        (env.ippReader dim (GetCommandLineArgument parser.ipp2 ""))
        (env.ippReader dim (GetCommandLineArgument parser.ipp1 "")).NumberOfPoints info1 info2
        (GetCommandLineArgument parser.out "") (GetCommandLineArgument parser.k "TPS")
        (GetCommandLineArgument parser.s 0)
      refine ⟨⟨fun hr => absurd hr (hne _), fun hr => absurd hr.2 h2⟩,
        fun hr => absurd hr (hne _), ?_, ?_⟩
      · intro converted hc
        rcases fromImages_trace_mem _ _ _ _ _ _ _ _ _ _ _ hc with h | h | ⟨_, h⟩ | ⟨_, h⟩ |
          ⟨_, h⟩ | ⟨_, h⟩
        · simp at h
        · rcases mem_conversionStages _ _ _ _ _ _ _ h with ⟨_, h⟩ | ⟨_, h⟩
          · simp at h
          · simp only [Stage.convertPointSet2.injEq] at h
            exact ⟨info2, h2, hi2, h⟩
        · simp at h
        · simp at h
        · simp at h
        · simp at h
      · intro hf; rw [hidx] at hf; simp at hf
    · rw [e]
      have hne := fromImages_result_ne_second env
        (env.ippReader dim (GetCommandLineArgument parser.ipp1 ""))
        (env.ippReader dim (GetCommandLineArgument parser.ipp2 ""))
        (env.ippReader dim (GetCommandLineArgument parser.ipp1 "")).NumberOfPoints info1
        (InputImageReaderType.New dim)
        (GetCommandLineArgument parser.out "") (GetCommandLineArgument parser.k "TPS")
        (GetCommandLineArgument parser.s 0)
      refine ⟨⟨fun hr => absurd hr (hne _), fun hr => by rw [hidx] at hr; simp at hr⟩,
        fun hr => absurd hr (hne _), ?_,
        fun _ => ⟨?_, fun other => (hindep hidx other).trans e⟩⟩
      · intro converted hc
        rcases fromImages_trace_mem _ _ _ _ _ _ _ _ _ _ _ hc with h | h | ⟨_, h⟩ | ⟨_, h⟩ |
          ⟨_, h⟩ | ⟨_, h⟩
        · simp at h
        · rcases mem_conversionStages _ _ _ _ _ _ _ h with ⟨_, h⟩ | ⟨h', _⟩
          · simp at h
          · rw [hidx] at h'; simp at h'
        · simp at h
        · simp at h
        · simp at h
        · simp at h
      · intro fileName hc
        rcases fromImages_trace_mem _ _ _ _ _ _ _ _ _ _ _ hc with h | h | ⟨_, h⟩ | ⟨_, h⟩ |
          ⟨_, h⟩ | ⟨_, h⟩
        · simp at h
        · rcases mem_conversionStages _ _ _ _ _ _ _ h with ⟨_, h⟩ | ⟨_, h⟩ <;> simp at h
        · simp at h
        · simp at h
        · simp at h
        · simp at h

/-- C3 witness: index-valued second points without `-in2`. -/
theorem C3_second_image_needed_witness :
    (2, mainCall sampleEnv (sampleParser "fixed.mhd" "fixed.txt" "index.txt" "out.mhd") 2) ∈
      (main sampleEnv (sampleParser "fixed.mhd" "fixed.txt" "index.txt" "out.mhd")).invoked ∧
    (sampleEnv.ippReader 2 "fixed.txt").NumberOfPoints =
      (sampleEnv.ippReader 2 "index.txt").NumberOfPoints ∧
    (mainCall sampleEnv (sampleParser "fixed.mhd" "fixed.txt" "index.txt" "out.mhd") 2).result =
      Result.threw (ExceptionObject.generic "Second input image is needed!") :=
  ⟨by decide, by decide,
   (C3_second_image_needed_exactly_for_indices sampleEnv
      (sampleParser "fixed.mhd" "fixed.txt" "index.txt" "out.mhd") 2 (by decide)
      (by decide)).1.2 ⟨by decide, by decide⟩⟩

/-- C4: the conversion loop turns a list of N index-valued points into the list of N
points, in the same order, whose j-th point is `origin + spacing * round(p_j)` per
component, with `round` within 1/2 of its argument.  In a run whose readers report the
length of their lists, the landmarks handed to `ComputeWMatrix` are: the first list
converted with the geometry of the first image, the second list converted with the
geometry of the second image, and a list in physical coordinates as it was read. -/
theorem C4_index_points_become_physical_in_order (env : Environment) (Dimension : ℕ)
    (inputImage1FileName inputImage2FileName inputPoints1FileName inputPoints2FileName
      outputImageFileName kernelName : String) (stiffness : ℚ)
    (h1 : (env.ippReader Dimension inputPoints1FileName).NumberOfPoints =
      (env.ippReader Dimension inputPoints1FileName).Output.length)
    (h2 : (env.ippReader Dimension inputPoints2FileName).NumberOfPoints =
      (env.ippReader Dimension inputPoints2FileName).Output.length) :
    (∀ (uninitialized : PointType) (spacing : SpacingType) (origin : PointType)
        (inputPointSet : PointSetType),
      convertIndexPoints uninitialized spacing origin inputPointSet inputPointSet.length =
        inputPointSet.map (fun point =>
          TransformIndexToPhysicalPoint spacing origin (point.map vnl_math_rnd))) ∧
    (∀ x : ℚ, |((vnl_math_rnd x : ℤ) : ℚ) - x| ≤ 1 / 2) ∧
    (∀ kernel stiff sourceLandmarks targetLandmarks,
      Stage.ComputeWMatrix kernel stiff sourceLandmarks targetLandmarks ∈
        (DeformationFieldGenerator env Dimension inputImage1FileName inputImage2FileName
          inputPoints1FileName inputPoints2FileName outputImageFileName kernelName
          stiffness).trace →
      ∃ reader1Output, env.imageInformation inputImage1FileName = some reader1Output ∧
        sourceLandmarks =
          (if (env.ippReader Dimension inputPoints1FileName).PointsAreIndices then
            (env.ippReader Dimension inputPoints1FileName).Output.map (fun point =>
              TransformIndexToPhysicalPoint reader1Output.Spacing reader1Output.Origin
                (point.map vnl_math_rnd))
          else (env.ippReader Dimension inputPoints1FileName).Output) ∧
        (if (env.ippReader Dimension inputPoints2FileName).PointsAreIndices then
          ∃ reader2Output, env.imageInformation inputImage2FileName = some reader2Output ∧
            targetLandmarks =
              (env.ippReader Dimension inputPoints2FileName).Output.map (fun point =>
                TransformIndexToPhysicalPoint reader2Output.Spacing reader2Output.Origin
                  (point.map vnl_math_rnd))
        else targetLandmarks = (env.ippReader Dimension inputPoints2FileName).Output)) := by
  refine ⟨convertIndexPoints_eq_map, vnl_math_rnd_nearest, ?_⟩
  intro kernel stiff sourceLandmarks targetLandmarks hmem
  have hsrc : ∀ info : ImageInformation,
      convertIfIndices env (env.ippReader Dimension inputPoints1FileName) info
        (env.ippReader Dimension inputPoints1FileName).NumberOfPoints =
      (if (env.ippReader Dimension inputPoints1FileName).PointsAreIndices then
        (env.ippReader Dimension inputPoints1FileName).Output.map (fun point =>
          TransformIndexToPhysicalPoint info.Spacing info.Origin (point.map vnl_math_rnd))
      else (env.ippReader Dimension inputPoints1FileName).Output) := by
    intro info
    unfold convertIfIndices
    rw [h1, convertIndexPoints_eq_map]
  rcases DeformationFieldGenerator_shape env Dimension inputImage1FileName inputImage2FileName
    inputPoints1FileName inputPoints2FileName outputImageFileName kernelName stiffness with
    ⟨_, e⟩ | ⟨_, _, e⟩ | ⟨hn, info1, hi1, hcases⟩
  · rw [e] at hmem; simp at hmem
  · rw [e] at hmem; simp at hmem
  · rcases hcases with ⟨_, _, e⟩ | ⟨_, _, _, e⟩ | ⟨hidx, _, info2, hi2, e⟩ | ⟨hidx, e⟩
    · rw [e] at hmem; simp at hmem
    · rw [e] at hmem; simp at hmem
    · rw [e] at hmem
      rcases fromImages_trace_mem _ _ _ _ _ _ _ _ _ _ _ hmem with h | h | ⟨_, h⟩ | ⟨_, h⟩ |
        ⟨_, h⟩ | ⟨_, h⟩
      · simp at h
      · rcases mem_conversionStages _ _ _ _ _ _ _ h with ⟨_, h⟩ | ⟨_, h⟩ <;> simp at h
      · simp at h
      · simp only [Stage.ComputeWMatrix.injEq] at h
        obtain ⟨_, _, hs, ht⟩ := h
        refine ⟨info1, hi1, by rw [hs, hsrc], ?_⟩
        rw [hidx, if_pos rfl]
        refine ⟨info2, hi2, ?_⟩
        rw [ht]
        unfold convertIfIndices
        rw [hidx, if_pos rfl, ← hn, h2, convertIndexPoints_eq_map]
      · simp at h
      · simp at h
    · rw [e] at hmem
      rcases fromImages_trace_mem _ _ _ _ _ _ _ _ _ _ _ hmem with h | h | ⟨_, h⟩ | ⟨_, h⟩ |
        ⟨_, h⟩ | ⟨_, h⟩
      · simp at h
      · rcases mem_conversionStages _ _ _ _ _ _ _ h with ⟨_, h⟩ | ⟨_, h⟩ <;> simp at h
      · simp at h
      · simp only [Stage.ComputeWMatrix.injEq] at h
        obtain ⟨_, _, hs, ht⟩ := h
        refine ⟨info1, hi1, by rw [hs, hsrc], ?_⟩
        rw [hidx]
        simp only [Bool.false_eq_true, if_false]
        rw [ht]
        unfold convertIfIndices
        rw [hidx]; simp
      · simp at h
      · simp at h

/-- C4 witness: two index points on the grid of spacing 2 and origin (10, 20). -/
theorem C4_index_points_witness :
    (sampleEnv.ippReader 2 "fixed.txt").NumberOfPoints =
      (sampleEnv.ippReader 2 "fixed.txt").Output.length ∧
    (sampleEnv.ippReader 2 "index.txt").NumberOfPoints =
      (sampleEnv.ippReader 2 "index.txt").Output.length ∧
    convertIndexPoints [] [2, 2] [10, 20] [[0, 1], [2, 1]]
        ([[0, 1], [2, 1]] : PointSetType).length =
      ([[0, 1], [2, 1]] : PointSetType).map (fun point =>
        TransformIndexToPhysicalPoint [2, 2] [10, 20] (point.map vnl_math_rnd)) :=
  ⟨by decide, by decide,
   (C4_index_points_become_physical_in_order sampleEnv 2 "fixed.mhd" "moving.mhd" "fixed.txt"
      "index.txt" "out.mhd" "TPS" 0 (by decide) (by decide)).1 [] [2, 2] [10, 20]
      [[0, 1], [2, 1]]⟩

/-- C5: on every region (with as many start indices as sizes) the evaluation loop comes
to its end, also when given more iterations than the field has cells; it has then set
each index of the region exactly once: the indices set have no duplicate, they are
exactly the indices inside the region, and their number is the product of the sizes. -/
theorem C5_evaluation_loop_visits_each_cell_once (reader1Output : ImageInformation)
    (TransformPoint : PointType → PointType)
    (hdim : reader1Output.LargestPossibleRegion.Index.length =
      reader1Output.LargestPossibleRegion.Size.length) :
    ∃ field, generateField reader1Output TransformPoint = some field ∧
      (∀ fuel, reader1Output.LargestPossibleRegion.GetNumberOfPixels ≤ fuel →
        evaluationLoop TransformPoint fuel
          (ImageRegionIteratorWithIndex.GoToBegin reader1Output.LargestPossibleRegion)
          ⟨reader1Output.Spacing, reader1Output.Origin, reader1Output.LargestPossibleRegion, []⟩ =
          some field) ∧
      (field.pixels.map Prod.fst).Nodup ∧
      (∀ index, index ∈ field.pixels.map Prod.fst ↔
        reader1Output.LargestPossibleRegion.IsInside index = true) ∧
      field.pixels.length = reader1Output.LargestPossibleRegion.Size.prod := by
  refine ⟨_, generateField_eq reader1Output TransformPoint,
    fun fuel hfuel => evaluationLoop_from_begin _ _ _ _ fuel hfuel, ?_, ?_, ?_⟩
  · simp only [List.map_map, Function.comp_def, List.map_id']
    exact visitedIndices_nodup _
  · intro index
    simp only [List.map_map, Function.comp_def, List.map_id']
    exact ⟨isInside_of_mem_visitedIndices _ _ hdim, mem_visitedIndices_of_isInside _ _⟩
  · simp only [List.length_map]
    exact length_visitedIndices _ hdim

/-- C5 witness: a region of size [4,4,4] gives 64 cells. -/
theorem C5_evaluation_loop_witness :
    volumeImage.LargestPossibleRegion.Index.length =
      volumeImage.LargestPossibleRegion.Size.length ∧
    ∃ field, generateField volumeImage id = some field ∧ field.pixels.length = 64 :=
  ⟨by decide,
   (C5_evaluation_loop_visits_each_cell_once volumeImage id (by decide)).imp
     (fun _ h => ⟨h.1, h.2.2.2.2.trans (by decide)⟩)⟩

/-- A generated field has the geometry of the image and a vector in every cell of the
region. -/
theorem generateField_pixel (reader1Output : ImageInformation)
    (TransformPoint : PointType → PointType) (field : DeformationFieldType)
    (h : generateField reader1Output TransformPoint = some field) :
    field.Origin = reader1Output.Origin ∧ field.Spacing = reader1Output.Spacing ∧
    field.LargestPossibleRegion = reader1Output.LargestPossibleRegion ∧
    ∀ index, reader1Output.LargestPossibleRegion.IsInside index = true →
      field.GetPixel index =
        some (displacementAt reader1Output.Spacing reader1Output.Origin TransformPoint index) := by
  rw [generateField_eq] at h
  simp only [Option.some.injEq] at h
  subst h
  refine ⟨rfl, rfl, rfl, fun index hin => ?_⟩
  exact getPixel_of_visited _ (visitedIndices reader1Output.LargestPossibleRegion)
    (displacementAt reader1Output.Spacing reader1Output.Origin TransformPoint) rfl index
    (mem_visitedIndices_of_isInside _ _ hin)

theorem narrowToFloat_zero : narrowToFloat 0 = 0 := by
  simp [narrowToFloat]

theorem fromImages_write (env : Environment) (ipp1Reader ipp2Reader : IPPReaderType)
    (nrofpoints : ℕ) (reader1Output reader2Output : ImageInformation)
    (outputImageFileName kernelName : String) (stiffness : ℚ) (trace : List Stage)
    (htrace : ∀ stage ∈ trace, stage.isWrite = false) :
    ((∀ stage ∈ (DeformationFieldGenerator.fromImages env ipp1Reader ipp2Reader nrofpoints
          reader1Output reader2Output outputImageFileName kernelName stiffness trace).trace,
        stage.isWrite = false) ∧
      (DeformationFieldGenerator.fromImages env ipp1Reader ipp2Reader nrofpoints
          reader1Output reader2Output outputImageFileName kernelName stiffness trace).result ≠
        Result.completed) ∨
    (∃ field TransformPoint before,
      (DeformationFieldGenerator.fromImages env ipp1Reader ipp2Reader nrofpoints
          reader1Output reader2Output outputImageFileName kernelName stiffness trace).trace =
        before ++ [Stage.fieldGenerated field, Stage.writerUpdate outputImageFileName field] ∧
      (∀ stage ∈ before, stage.isWrite = false) ∧
      generateField reader1Output TransformPoint = some field ∧
      ((DeformationFieldGenerator.fromImages env ipp1Reader ipp2Reader nrofpoints
          reader1Output reader2Output outputImageFileName kernelName stiffness trace).result =
          Result.completed ∨
        (DeformationFieldGenerator.fromImages env ipp1Reader ipp2Reader nrofpoints
          reader1Output reader2Output outputImageFileName kernelName stiffness trace).result =
          Result.threw (ExceptionObject.imageWriter outputImageFileName))) := by
  have hconv := conversionStages_no_write env ipp1Reader ipp2Reader nrofpoints reader1Output
    reader2Output
  rcases fromImages_shape env ipp1Reader ipp2Reader nrofpoints reader1Output reader2Output
    outputImageFileName kernelName stiffness trace with
    ⟨_, e⟩ | ⟨k, _, _, e⟩ | ⟨k, T, f, _, _, hgen, e⟩ <;> rw [e]
  · left
    refine ⟨fun stage hs => ?_, by simp⟩
    rcases List.mem_append.1 hs with h | h
    · exact htrace _ h
    · exact (hconv _ h).1
  · left
    refine ⟨fun stage hs => ?_, by simp⟩
    simp only [List.mem_append, List.mem_cons, List.mem_singleton, List.not_mem_nil,
      or_false] at hs
    rcases hs with (h | h) | rfl | rfl
    · exact htrace _ h
    · exact (hconv _ h).1
    · rfl
    · rfl
  · right
    refine ⟨f, T, _, rfl, fun stage hs => ?_, hgen, ?_⟩
    · simp only [List.mem_append, List.mem_cons, List.mem_singleton, List.not_mem_nil,
        or_false] at hs
      rcases hs with (h | h) | rfl | rfl
      · exact htrace _ h
      · exact (hconv _ h).1
      · rfl
      · rfl
    · simp only []
      split
      · right; rfl
      · left; rfl

/-- Every run of the generator either never calls the writer and does not complete, or
calls it once, as its last step, on a field that the evaluation loop has generated on
the geometry of the first image. -/
theorem DeformationFieldGenerator_write (env : Environment) (Dimension : ℕ)
    (inputImage1FileName inputImage2FileName inputPoints1FileName inputPoints2FileName
      outputImageFileName kernelName : String) (stiffness : ℚ) :
    ((∀ stage ∈ (DeformationFieldGenerator env Dimension inputImage1FileName
          inputImage2FileName inputPoints1FileName inputPoints2FileName outputImageFileName
          kernelName stiffness).trace, stage.isWrite = false) ∧
      (DeformationFieldGenerator env Dimension inputImage1FileName inputImage2FileName
          inputPoints1FileName inputPoints2FileName outputImageFileName kernelName
          stiffness).result ≠ Result.completed) ∨
    (∃ reader1Output field TransformPoint before,
      env.imageInformation inputImage1FileName = some reader1Output ∧
      (DeformationFieldGenerator env Dimension inputImage1FileName inputImage2FileName
          inputPoints1FileName inputPoints2FileName outputImageFileName kernelName
          stiffness).trace =
        before ++ [Stage.fieldGenerated field, Stage.writerUpdate outputImageFileName field] ∧
      (∀ stage ∈ before, stage.isWrite = false) ∧
      generateField reader1Output TransformPoint = some field ∧
      ((DeformationFieldGenerator env Dimension inputImage1FileName inputImage2FileName
          inputPoints1FileName inputPoints2FileName outputImageFileName kernelName
          stiffness).result = Result.completed ∨
        (DeformationFieldGenerator env Dimension inputImage1FileName inputImage2FileName
          inputPoints1FileName inputPoints2FileName outputImageFileName kernelName
          stiffness).result = Result.threw (ExceptionObject.imageWriter outputImageFileName))) := by
  rcases DeformationFieldGenerator_shape env Dimension inputImage1FileName inputImage2FileName
    inputPoints1FileName inputPoints2FileName outputImageFileName kernelName stiffness with
    ⟨_, e⟩ | ⟨_, _, e⟩ | ⟨hn, info1, hi1, hcases⟩
  · left; rw [e]
    refine ⟨fun stage hs => ?_, by simp⟩
    simp only [List.mem_cons, List.mem_singleton, List.not_mem_nil, or_false] at hs
    rcases hs with rfl | rfl | rfl <;> rfl
  · left; rw [e]
    refine ⟨fun stage hs => ?_, by simp⟩
    simp only [List.mem_cons, List.mem_singleton, List.not_mem_nil, or_false] at hs
    rcases hs with rfl | rfl | rfl | rfl <;> rfl
  · rcases hcases with ⟨_, _, e⟩ | ⟨_, _, _, e⟩ | ⟨_, _, info2, _, e⟩ | ⟨_, e⟩
    · left; rw [e]
      refine ⟨fun stage hs => ?_, by simp⟩
      simp only [List.mem_cons, List.mem_singleton, List.not_mem_nil, or_false] at hs
      rcases hs with rfl | rfl | rfl | rfl <;> rfl
    · left; rw [e]
      refine ⟨fun stage hs => ?_, by simp⟩
      simp only [List.mem_cons, List.mem_singleton, List.not_mem_nil, or_false] at hs
      rcases hs with rfl | rfl | rfl | rfl | rfl <;> rfl
    · rw [e]
      rcases fromImages_write env (env.ippReader Dimension inputPoints1FileName)
        (env.ippReader Dimension inputPoints2FileName)
        (env.ippReader Dimension inputPoints1FileName).NumberOfPoints info1 info2
        outputImageFileName kernelName stiffness
          [Stage.ipp1Update (env.ippReader Dimension inputPoints1FileName).UpdateThrows,
           Stage.ipp2Update (env.ippReader Dimension inputPoints2FileName).UpdateThrows,
           Stage.cardinalityCheck (env.ippReader Dimension inputPoints1FileName).NumberOfPoints
             (env.ippReader Dimension inputPoints2FileName).NumberOfPoints,
           Stage.reader1UpdateOutputInformation inputImage1FileName,
           Stage.reader2UpdateOutputInformation inputImage2FileName]
          (fun stage hs => by
          simp only [List.mem_cons, List.mem_singleton, List.not_mem_nil, or_false] at hs
          rcases hs with rfl | rfl | rfl | rfl | rfl <;> rfl) with h | ⟨f, T, b, h⟩
      · exact Or.inl h
      · exact Or.inr ⟨info1, f, T, b, hi1, h⟩
    · rw [e]
      rcases fromImages_write env (env.ippReader Dimension inputPoints1FileName)
        (env.ippReader Dimension inputPoints2FileName)
        (env.ippReader Dimension inputPoints1FileName).NumberOfPoints info1
        (InputImageReaderType.New Dimension)
        outputImageFileName kernelName stiffness
          [Stage.ipp1Update (env.ippReader Dimension inputPoints1FileName).UpdateThrows,
           Stage.ipp2Update (env.ippReader Dimension inputPoints2FileName).UpdateThrows,
           Stage.cardinalityCheck (env.ippReader Dimension inputPoints1FileName).NumberOfPoints
             (env.ippReader Dimension inputPoints2FileName).NumberOfPoints,
           Stage.reader1UpdateOutputInformation inputImage1FileName]
          (fun stage hs => by
          simp only [List.mem_cons, List.mem_singleton, List.not_mem_nil, or_false] at hs
          rcases hs with rfl | rfl | rfl | rfl <;> rfl) with h | ⟨f, T, b, h⟩
      · exact Or.inl h
      · exact Or.inr ⟨info1, f, T, b, hi1, h⟩

/-- C7: a run that ends in the point-count exception, the missing-second-image exception,
the unknown-kernel exception or an exception of the kernel fit has no writer call in its
trace.  Whenever the writer is called, it is the last step of the run, it comes right
after the evaluation loop, and the field it is given is the one the loop generated on the
first image, with a vector in every cell of its region.  A run that completes has
called the writer. -/
theorem C7_field_written_only_when_fully_evaluated (env : Environment) (Dimension : ℕ)
    (inputImage1FileName inputImage2FileName inputPoints1FileName inputPoints2FileName
      outputImageFileName kernelName : String) (stiffness : ℚ) :
    (((DeformationFieldGenerator env Dimension inputImage1FileName inputImage2FileName
          inputPoints1FileName inputPoints2FileName outputImageFileName kernelName
          stiffness).result = Result.threw (ExceptionObject.generic
            "Number of input points does not equal number of output points!") ∨
        (DeformationFieldGenerator env Dimension inputImage1FileName inputImage2FileName
          inputPoints1FileName inputPoints2FileName outputImageFileName kernelName
          stiffness).result =
            Result.threw (ExceptionObject.generic "Second input image is needed!") ∨
        (DeformationFieldGenerator env Dimension inputImage1FileName inputImage2FileName
          inputPoints1FileName inputPoints2FileName outputImageFileName kernelName
          stiffness).result =
            Result.threw (ExceptionObject.generic "Unknown kernel transform!.") ∨
        (DeformationFieldGenerator env Dimension inputImage1FileName inputImage2FileName
          inputPoints1FileName inputPoints2FileName outputImageFileName kernelName
          stiffness).result = Result.threw ExceptionObject.kernelTransform) →
      ∀ stage ∈ (DeformationFieldGenerator env Dimension inputImage1FileName
          inputImage2FileName inputPoints1FileName inputPoints2FileName outputImageFileName
          kernelName stiffness).trace, stage.isWrite = false) ∧
    (∀ fileName field, Stage.writerUpdate fileName field ∈
        (DeformationFieldGenerator env Dimension inputImage1FileName inputImage2FileName
          inputPoints1FileName inputPoints2FileName outputImageFileName kernelName
          stiffness).trace →
      fileName = outputImageFileName ∧
      (∃ before,
        (DeformationFieldGenerator env Dimension inputImage1FileName inputImage2FileName
          inputPoints1FileName inputPoints2FileName outputImageFileName kernelName
          stiffness).trace =
          before ++ [Stage.fieldGenerated field, Stage.writerUpdate outputImageFileName field] ∧
        ∀ stage ∈ before, stage.isWrite = false) ∧
      (∃ reader1Output TransformPoint,
        env.imageInformation inputImage1FileName = some reader1Output ∧
        generateField reader1Output TransformPoint = some field) ∧
      ∀ index, field.LargestPossibleRegion.IsInside index = true →
        ∃ vec, field.GetPixel index = some vec) ∧
    ((DeformationFieldGenerator env Dimension inputImage1FileName inputImage2FileName
          inputPoints1FileName inputPoints2FileName outputImageFileName kernelName
          stiffness).result = Result.completed →
      ∃ field, Stage.writerUpdate outputImageFileName field ∈
        (DeformationFieldGenerator env Dimension inputImage1FileName inputImage2FileName
          inputPoints1FileName inputPoints2FileName outputImageFileName kernelName
          stiffness).trace) := by
  rcases DeformationFieldGenerator_write env Dimension inputImage1FileName inputImage2FileName
    inputPoints1FileName inputPoints2FileName outputImageFileName kernelName stiffness with
    ⟨hno, hres⟩ | ⟨info, f, T, before, hinfo, htr, hbefore, hgen, hres⟩
  · refine ⟨fun _ => hno, fun fileName field hmem => ?_, fun hc => absurd hc hres⟩
    have hw : (Stage.writerUpdate fileName field).isWrite = false := hno _ hmem
    exact absurd hw (by simp [Stage.isWrite])
  · refine ⟨fun hfail stage _ => ?_, fun fileName field hmem => ?_, fun _ => ⟨f, ?_⟩⟩
    · exfalso
      rcases hres with h | h <;> rw [h] at hfail <;> simp at hfail
    · rw [htr] at hmem
      simp only [List.mem_append, List.mem_cons, List.mem_singleton, List.not_mem_nil,
        or_false] at hmem
      rcases hmem with h | h | h
      · have hw : (Stage.writerUpdate fileName field).isWrite = false := hbefore _ h
        exact absurd hw (by simp [Stage.isWrite])
      · simp at h
      · simp only [Stage.writerUpdate.injEq] at h
        obtain ⟨rfl, rfl⟩ := h
        refine ⟨rfl, ⟨before, htr, hbefore⟩, ⟨info, T, hinfo, hgen⟩, fun index hin => ?_⟩
        obtain ⟨_, _, hreg, hpix⟩ := generateField_pixel info T field hgen
        rw [hreg] at hin
        exact ⟨_, hpix index hin⟩
    · rw [htr]; simp

theorem kernelOfName_isSome_iff (kernelName : String) :
    (∃ kernel, kernelOfName kernelName = some kernel) ↔
      kernelName ∈ ["TPS", "TPSR2LOGR", "VS", "EBS", "EBSR"] := by
  unfold kernelOfName
  simp only [List.mem_cons, List.mem_singleton, List.not_mem_nil, or_false]
  split_ifs with h1 h2 h3 h4 h5 <;> simp [*]

theorem fromImages_unknown_kernel (env : Environment) (ipp1Reader ipp2Reader : IPPReaderType)
    (nrofpoints : ℕ) (reader1Output reader2Output : ImageInformation)
    (outputImageFileName kernelName : String) (stiffness : ℚ) (trace : List Stage)
    (hk : kernelOfName kernelName = none) :
    DeformationFieldGenerator.fromImages env ipp1Reader ipp2Reader nrofpoints reader1Output
        reader2Output outputImageFileName kernelName stiffness trace =
      ⟨trace ++ conversionStages env ipp1Reader ipp2Reader nrofpoints reader1Output
          reader2Output,
        Result.threw (ExceptionObject.generic "Unknown kernel transform!.")⟩ := by
  rcases fromImages_shape env ipp1Reader ipp2Reader nrofpoints reader1Output reader2Output
    outputImageFileName kernelName stiffness trace with
    ⟨_, e⟩ | ⟨k, hk2, _, e⟩ | ⟨k, T, f, hk2, _, _, e⟩
  · exact e
  · rw [hk] at hk2; simp at hk2
  · rw [hk] at hk2; simp at hk2

theorem unknown_kernel_run (env : Environment) (Dimension : ℕ)
    (inputImage1FileName inputImage2FileName inputPoints1FileName inputPoints2FileName
      outputImageFileName kernelName : String) (stiffness : ℚ)
    (hk : kernelOfName kernelName = none) :
    (∃ e, (DeformationFieldGenerator env Dimension inputImage1FileName inputImage2FileName
        inputPoints1FileName inputPoints2FileName outputImageFileName kernelName
        stiffness).result = Result.threw e) ∧
    ∀ stage ∈ (DeformationFieldGenerator env Dimension inputImage1FileName inputImage2FileName
        inputPoints1FileName inputPoints2FileName outputImageFileName kernelName
        stiffness).trace, stage.isKernelFit = false ∧ stage.isWrite = false := by
  rcases DeformationFieldGenerator_shape env Dimension inputImage1FileName inputImage2FileName
    inputPoints1FileName inputPoints2FileName outputImageFileName kernelName stiffness with
    ⟨_, e⟩ | ⟨_, _, e⟩ | ⟨hn, info1, hi1, hcases⟩
  · rw [e]
    refine ⟨⟨_, rfl⟩, fun stage hs => ?_⟩
    simp only [List.mem_cons, List.mem_singleton, List.not_mem_nil, or_false] at hs
    rcases hs with rfl | rfl | rfl <;> exact ⟨rfl, rfl⟩
  · rw [e]
    refine ⟨⟨_, rfl⟩, fun stage hs => ?_⟩
    simp only [List.mem_cons, List.mem_singleton, List.not_mem_nil, or_false] at hs
    rcases hs with rfl | rfl | rfl | rfl <;> exact ⟨rfl, rfl⟩
  · rcases hcases with ⟨_, _, e⟩ | ⟨_, _, _, e⟩ | ⟨_, _, info2, _, e⟩ | ⟨_, e⟩
    · rw [e]
      refine ⟨⟨_, rfl⟩, fun stage hs => ?_⟩
      simp only [List.mem_cons, List.mem_singleton, List.not_mem_nil, or_false] at hs
      rcases hs with rfl | rfl | rfl | rfl <;> exact ⟨rfl, rfl⟩
    · rw [e]
      refine ⟨⟨_, rfl⟩, fun stage hs => ?_⟩
      simp only [List.mem_cons, List.mem_singleton, List.not_mem_nil, or_false] at hs
      rcases hs with rfl | rfl | rfl | rfl | rfl <;> exact ⟨rfl, rfl⟩
    · rw [e, fromImages_unknown_kernel _ _ _ _ _ _ _ _ _ _ hk]
      refine ⟨⟨_, rfl⟩, fun stage hs => ?_⟩
      simp only [List.mem_append, List.mem_cons, List.mem_singleton, List.not_mem_nil,
        or_false] at hs
      rcases hs with (rfl | rfl | rfl | rfl | rfl) | h
      · exact ⟨rfl, rfl⟩
      · exact ⟨rfl, rfl⟩
      · exact ⟨rfl, rfl⟩
      · exact ⟨rfl, rfl⟩
      · exact ⟨rfl, rfl⟩
      · exact (conversionStages_no_write _ _ _ _ _ _ _ h).symm
    · rw [e, fromImages_unknown_kernel _ _ _ _ _ _ _ _ _ _ hk]
      refine ⟨⟨_, rfl⟩, fun stage hs => ?_⟩
      simp only [List.mem_append, List.mem_cons, List.mem_singleton, List.not_mem_nil,
        or_false] at hs
      rcases hs with (rfl | rfl | rfl | rfl) | h
      · exact ⟨rfl, rfl⟩
      · exact ⟨rfl, rfl⟩
      · exact ⟨rfl, rfl⟩
      · exact ⟨rfl, rfl⟩
      · exact (conversionStages_no_write _ _ _ _ _ _ _ h).symm

theorem kernel_stage_selected (env : Environment) (Dimension : ℕ)
    (inputImage1FileName inputImage2FileName inputPoints1FileName inputPoints2FileName
      outputImageFileName kernelName : String) (stiffness : ℚ) (kernel : KernelTransformType)
    (h : Stage.kernelNew kernel ∈
      (DeformationFieldGenerator env Dimension inputImage1FileName inputImage2FileName
        inputPoints1FileName inputPoints2FileName outputImageFileName kernelName
        stiffness).trace) :
    kernelOfName kernelName = some kernel := by
  have key : ∀ (r1 r2 : IPPReaderType) (n : ℕ) (i1 i2 : ImageInformation) (trace : List Stage),
      Stage.kernelNew kernel ∉ trace →
      Stage.kernelNew kernel ∈ (DeformationFieldGenerator.fromImages env r1 r2 n i1 i2
        outputImageFileName kernelName stiffness trace).trace →
      kernelOfName kernelName = some kernel := by
    intro r1 r2 n i1 i2 trace hnot hmem
    rcases fromImages_shape env r1 r2 n i1 i2 outputImageFileName kernelName stiffness trace with
      ⟨_, e⟩ | ⟨k, hk2, _, e⟩ | ⟨k, T, f, hk2, _, _, e⟩ <;> rw [e] at hmem <;>
      simp only [List.mem_append, List.mem_cons, List.mem_singleton, List.not_mem_nil,
        or_false] at hmem
    · rcases hmem with h | h
      · exact absurd h hnot
      · rcases mem_conversionStages _ _ _ _ _ _ _ h with ⟨_, h⟩ | ⟨_, h⟩ <;> simp at h
    · rcases hmem with (h | h) | h | h
      · exact absurd h hnot
      · rcases mem_conversionStages _ _ _ _ _ _ _ h with ⟨_, h⟩ | ⟨_, h⟩ <;> simp at h
      · simp only [Stage.kernelNew.injEq] at h; rw [h]; exact hk2
      · simp at h
    · rcases hmem with ((h | h) | h | h) | h | h
      · exact absurd h hnot
      · rcases mem_conversionStages _ _ _ _ _ _ _ h with ⟨_, h⟩ | ⟨_, h⟩ <;> simp at h
      · simp only [Stage.kernelNew.injEq] at h; rw [h]; exact hk2
      · simp at h
      · simp at h
      · simp at h
  rcases DeformationFieldGenerator_shape env Dimension inputImage1FileName inputImage2FileName
    inputPoints1FileName inputPoints2FileName outputImageFileName kernelName stiffness with
    ⟨_, e⟩ | ⟨_, _, e⟩ | ⟨hn, info1, hi1, hcases⟩
  · rw [e] at h; simp at h
  · rw [e] at h; simp at h
  · rcases hcases with ⟨_, _, e⟩ | ⟨_, _, _, e⟩ | ⟨_, _, info2, _, e⟩ | ⟨_, e⟩
    · rw [e] at h; simp at h
    · rw [e] at h; simp at h
    · rw [e] at h; exact key _ _ _ _ _ _ (by simp) h
    · rw [e] at h; exact key _ _ _ _ _ _ (by simp) h

/-- C8: the kernel name selects a kernel class exactly when it is one of "TPS",
"TPSR2LOGR", "VS", "EBS", "EBSR", each name selecting its own class; `main` passes "TPS"
when the `-k` flag is absent; the kernel that a run creates is the one its name selects.
With any other name the run ends in an exception without a kernel fit and without a
writer call (the exception is "Unknown kernel transform!." once lines 294-364 are
reached), and a `main` that made the call returns 1. -/
theorem C8_kernel_selection_closed_set (env : Environment) (Dimension : ℕ)
    (inputImage1FileName inputImage2FileName inputPoints1FileName inputPoints2FileName
      outputImageFileName kernelName : String) (stiffness : ℚ) :
    (kernelOfName "TPS" = some KernelTransformType.TPSTransformType ∧
      kernelOfName "TPSR2LOGR" = some KernelTransformType.TPSR2LOGRTransformType ∧
      kernelOfName "VS" = some KernelTransformType.VSTransformType ∧
      kernelOfName "EBS" = some KernelTransformType.EBSTransformType ∧
      kernelOfName "EBSR" = some KernelTransformType.EBSRTransformType) ∧
    ((∃ kernel, kernelOfName kernelName = some kernel) ↔
      kernelName ∈ ["TPS", "TPSR2LOGR", "VS", "EBS", "EBSR"]) ∧
    (∀ (parser : CommandLineArgumentParser) (dim : ℕ), parser.k = none →
      mainCall env parser dim =
        DeformationFieldGenerator env dim (GetCommandLineArgument parser.in1 "")
          (GetCommandLineArgument parser.in2 "") (GetCommandLineArgument parser.ipp1 "")
          (GetCommandLineArgument parser.ipp2 "") (GetCommandLineArgument parser.out "")
          "TPS" (GetCommandLineArgument parser.s 0)) ∧
    (∀ kernel, Stage.kernelNew kernel ∈
        (DeformationFieldGenerator env Dimension inputImage1FileName inputImage2FileName
          inputPoints1FileName inputPoints2FileName outputImageFileName kernelName
          stiffness).trace →
      kernelOfName kernelName = some kernel) ∧
    (kernelName ∉ ["TPS", "TPSR2LOGR", "VS", "EBS", "EBSR"] →
      (∃ e, (DeformationFieldGenerator env Dimension inputImage1FileName inputImage2FileName
          inputPoints1FileName inputPoints2FileName outputImageFileName kernelName
          stiffness).result = Result.threw e) ∧
      (∀ stage ∈ (DeformationFieldGenerator env Dimension inputImage1FileName
          inputImage2FileName inputPoints1FileName inputPoints2FileName outputImageFileName
          kernelName stiffness).trace, stage.isKernelFit = false ∧ stage.isWrite = false) ∧
      (∀ (ipp1Reader ipp2Reader : IPPReaderType) (nrofpoints : ℕ)
          (reader1Output reader2Output : ImageInformation) (trace : List Stage),
        (DeformationFieldGenerator.fromImages env ipp1Reader ipp2Reader nrofpoints
          reader1Output reader2Output outputImageFileName kernelName stiffness trace).result =
          Result.threw (ExceptionObject.generic "Unknown kernel transform!.")) ∧
      (∀ parser : CommandLineArgumentParser,
        (Dimension, DeformationFieldGenerator env Dimension inputImage1FileName
          inputImage2FileName inputPoints1FileName inputPoints2FileName outputImageFileName
          kernelName stiffness) ∈ (main env parser).invoked →
        (main env parser).exitCode = some 1)) := by
  refine ⟨⟨by decide, by decide, by decide, by decide, by decide⟩,
    kernelOfName_isSome_iff kernelName, ?_, ?_, ?_⟩
  · intro parser dim hk
    simp [mainCall, hk, GetCommandLineArgument]
  · intro kernel h
    exact kernel_stage_selected env Dimension inputImage1FileName inputImage2FileName
      inputPoints1FileName inputPoints2FileName outputImageFileName kernelName stiffness kernel h
  · intro hnot
    have hk : kernelOfName kernelName = none := by
      cases h : kernelOfName kernelName with
      | none => rfl
      | some kernel => exact absurd ((kernelOfName_isSome_iff kernelName).1 ⟨kernel, h⟩) hnot
    obtain ⟨⟨e, he⟩, hst⟩ := unknown_kernel_run env Dimension inputImage1FileName
      inputImage2FileName inputPoints1FileName inputPoints2FileName outputImageFileName
      kernelName stiffness hk
    refine ⟨⟨e, he⟩, hst, ?_, fun parser hmem => main_exit_of_threw env parser _ _ e hmem he⟩
    intro r1 r2 n i1 i2 trace
    rw [fromImages_unknown_kernel _ _ _ _ _ _ _ _ _ _ hk]


/-- C8 witness: the kernel name "SPLINE" is rejected and `main` returns 1. -/
theorem C8_kernel_selection_witness :
    "SPLINE" ∉ ["TPS", "TPSR2LOGR", "VS", "EBS", "EBSR"] ∧
    (main sampleEnv ⟨ReturnValue.PASSED, some "fixed.mhd", none, some "fixed.txt",
      some "moving.txt", some "out.mhd", some "SPLINE", none⟩).exitCode = some 1 :=
  ⟨by decide,
   ((C8_kernel_selection_closed_set sampleEnv 2 "fixed.mhd" "" "fixed.txt" "moving.txt"
      "out.mhd" "SPLINE" 0).2.2.2.2 (by decide)).2.2.2
      ⟨ReturnValue.PASSED, some "fixed.mhd", none, some "fixed.txt", some "moving.txt",
        some "out.mhd", some "SPLINE", none⟩ (by decide)⟩

/-- C9: called with a null handle, `ITKToolsCastConvert3D` returns the instance for the
requested component type when that type is one of the ten candidates (short, unsigned
short, char, unsigned char, int, unsigned int, long, unsigned long, float, double) and
the dimension is 3, and leaves the handle null otherwise.  At most one candidate matches
a request, the result is the first match of the probe, it is null exactly when no
candidate matches, and a handle that is not null is left alone. -/
theorem C9_castconvert3D_unique_match (outputComponentType : ComponentType) (dim : ℕ) :
    ITKToolsCastConvert3D outputComponentType dim none =
      (if outputComponentType ≠ ComponentType.UNKNOWNCOMPONENTTYPE ∧ dim = 3 then
        some ⟨outputComponentType, 3⟩ else none) ∧
    (candidates3D.filter (fun candidate =>
      (ITKToolsCastConvert.New candidate.1 candidate.2 outputComponentType dim).isSome)).length ≤ 1 ∧
    ITKToolsCastConvert3D outputComponentType dim none =
      (candidates3D.filterMap (fun candidate =>
        ITKToolsCastConvert.New candidate.1 candidate.2 outputComponentType dim)).head? ∧
    (ITKToolsCastConvert3D outputComponentType dim none = none ↔
      ∀ candidate ∈ candidates3D,
        ITKToolsCastConvert.New candidate.1 candidate.2 outputComponentType dim = none) ∧
    (∀ instance_, ITKToolsCastConvert3D outputComponentType dim (some instance_) =
      some instance_) := by
  by_cases hd : dim = 3
  · subst hd
    cases outputComponentType <;>
      simp [ITKToolsCastConvert3D, ITKToolsCastConvert.New, assignIfNull, candidates3D]
  · have hd2 : ¬ 3 = dim := fun h => hd h.symm
    simp [ITKToolsCastConvert3D, ITKToolsCastConvert.New, assignIfNull, candidates3D, hd, hd2]

theorem DeformationFieldGenerator_result (env : Environment) (Dimension : ℕ)
    (inputImage1FileName inputImage2FileName inputPoints1FileName inputPoints2FileName
      outputImageFileName kernelName : String) (stiffness : ℚ) :
    (DeformationFieldGenerator env Dimension inputImage1FileName inputImage2FileName
      inputPoints1FileName inputPoints2FileName outputImageFileName kernelName
      stiffness).result ≠ Result.loopOutOfFuel := by
  have key : ∀ (r1 r2 : IPPReaderType) (n : ℕ) (i1 i2 : ImageInformation) (trace : List Stage),
      (DeformationFieldGenerator.fromImages env r1 r2 n i1 i2
        outputImageFileName kernelName stiffness trace).result ≠ Result.loopOutOfFuel := by
    intro r1 r2 n i1 i2 trace
    rcases fromImages_shape env r1 r2 n i1 i2 outputImageFileName kernelName stiffness trace with
      ⟨_, e⟩ | ⟨k, hk2, _, e⟩ | ⟨k, T, f, hk2, _, _, e⟩ <;> rw [e]
    · simp
    · simp
    · simp only []; split <;> simp
  rcases DeformationFieldGenerator_shape env Dimension inputImage1FileName inputImage2FileName
    inputPoints1FileName inputPoints2FileName outputImageFileName kernelName stiffness with
    ⟨_, e⟩ | ⟨_, _, e⟩ | ⟨hn, info1, hi1, hcases⟩
  · rw [e]; simp
  · rw [e]; simp
  · rcases hcases with ⟨_, _, e⟩ | ⟨_, _, _, e⟩ | ⟨_, _, info2, _, e⟩ | ⟨_, e⟩
    · rw [e]; simp
    · rw [e]; simp
    · rw [e]; exact key _ _ _ _ _ _
    · rw [e]; exact key _ _ _ _ _ _


/-- C10 counterexample: for a 2D image with three components `main` reports dimension 2,
calls no specialization and returns 1. -/
theorem C10_vector_image_not_dispatched :
    GetImageProperties sampleEnv "vector.mhd" 2 1 = (0, 2, 3) ∧
    (main sampleEnv (sampleParser "vector.mhd" "fixed.txt" "moving.txt" "out.mhd")).invoked = [] ∧
    ¬ (∃ o, (main sampleEnv
        (sampleParser "vector.mhd" "fixed.txt" "moving.txt" "out.mhd")).invoked = [(2, o)]) ∧
    (main sampleEnv (sampleParser "vector.mhd" "fixed.txt" "moving.txt" "out.mhd")).exitCode =
      some 1 := by
  have h : (main sampleEnv
      (sampleParser "vector.mhd" "fixed.txt" "moving.txt" "out.mhd")).invoked = [] := by decide
  refine ⟨by decide, h, ?_, by decide⟩
  rintro ⟨o, ho⟩
  rw [h] at ho
  simp at ho

/-- C10 (amended): past the argument check and with the properties of the first image
read, `main` calls exactly one specialization, the one for the image dimension, when that
dimension is 2 or 3 and the image has at most one component; it then returns 0 exactly
when the call completes and 1 exactly when the call ends in an exception.  For every
other dimension, and for every image with more than one component, it calls no
specialization and returns 1. -/
theorem C10_main_dispatch_on_scalar_images (env : Environment)
    (parser : CommandLineArgumentParser) (info : ImageInformation)
    (hp : parser.CheckForRequiredArguments = ReturnValue.PASSED)
    (hi : env.imageInformation (GetCommandLineArgument parser.in1 "") = some info) :
    (info.NumberOfComponents ≤ 1 → (info.Dimension = 2 ∨ info.Dimension = 3) →
      (main env parser).invoked = [(info.Dimension, mainCall env parser info.Dimension)] ∧
      ((main env parser).exitCode = some 0 ↔
        (mainCall env parser info.Dimension).result = Result.completed) ∧
      ((main env parser).exitCode = some 1 ↔
        ∃ e, (mainCall env parser info.Dimension).result = Result.threw e) ∧
      ((main env parser).exitCode = some 0 ∨ (main env parser).exitCode = some 1)) ∧
    (info.NumberOfComponents ≤ 1 → ¬ (info.Dimension = 2 ∨ info.Dimension = 3) →
      (main env parser).invoked = [] ∧ (main env parser).exitCode = some 1) ∧
    (1 < info.NumberOfComponents →
      (main env parser).invoked = [] ∧ (main env parser).exitCode = some 1) := by
  refine ⟨fun hc hd => ?_, fun hc hd => ?_, fun hc => ?_⟩
  · have hd2 : info.Dimension = 3 ∨ info.Dimension = 2 := hd.symm
    rw [main_dispatch env parser info hp hi hc, if_pos hd2]
    have hne := DeformationFieldGenerator_result env info.Dimension
      (GetCommandLineArgument parser.in1 "")
      (GetCommandLineArgument parser.in2 "") (GetCommandLineArgument parser.ipp1 "")
      (GetCommandLineArgument parser.ipp2 "") (GetCommandLineArgument parser.out "")
      (GetCommandLineArgument parser.k "TPS") (GetCommandLineArgument parser.s 0)
    unfold mainCall
    cases hr : (DeformationFieldGenerator env info.Dimension
      (GetCommandLineArgument parser.in1 "")
      (GetCommandLineArgument parser.in2 "") (GetCommandLineArgument parser.ipp1 "")
      (GetCommandLineArgument parser.ipp2 "") (GetCommandLineArgument parser.out "")
      (GetCommandLineArgument parser.k "TPS") (GetCommandLineArgument parser.s 0)).result with
    | completed => simp [exitCodeOf]
    | threw e => simp [exitCodeOf]
    | loopOutOfFuel => exact absurd hr hne
  · have hd2 : ¬ (info.Dimension = 3 ∨ info.Dimension = 2) := fun h => hd h.symm
    rw [main_dispatch env parser info hp hi hc, if_neg hd2]
    exact ⟨rfl, rfl⟩
  · have hc2 : info.NumberOfComponents > 1 := hc
    simp [main, hp, GetImageProperties, hi, hc2]

/-- C10 witness: a 2D scalar image with two matching point files; `main` returns 0. -/
theorem C10_main_dispatch_witness :
    (sampleParser "fixed.mhd" "fixed.txt" "moving.txt" "out.mhd").CheckForRequiredArguments =
      ReturnValue.PASSED ∧
    sampleEnv.imageInformation (GetCommandLineArgument
      (sampleParser "fixed.mhd" "fixed.txt" "moving.txt" "out.mhd").in1 "") = some fixedImage ∧
    (main sampleEnv (sampleParser "fixed.mhd" "fixed.txt" "moving.txt" "out.mhd")).exitCode =
      some 0 :=
  ⟨rfl, rfl,
   (((C10_main_dispatch_on_scalar_images sampleEnv
      (sampleParser "fixed.mhd" "fixed.txt" "moving.txt" "out.mhd") fixedImage rfl rfl).1
      (by decide) (Or.inl rfl)).2.1).2 (by decide)⟩

/-! ### What the generator does with the fitted transform -/

theorem PointType.sub_self_eq (point : PointType) :
    PointType.sub point point = List.replicate point.length 0 := by
  unfold PointType.sub
  induction point with
  | nil => rfl
  | cons x xs ih => simp [List.replicate_succ, ih]

/-- A transform that leaves the physical point of every index of the region where it is
gives a field with the zero vector in every cell. -/
theorem generateField_zero_of_fixed_points (reader1Output : ImageInformation)
    (TransformPoint : PointType → PointType) (field : DeformationFieldType)
    (hgen : generateField reader1Output TransformPoint = some field)
    (hfix : ∀ index, reader1Output.LargestPossibleRegion.IsInside index = true →
      TransformPoint
        (TransformIndexToPhysicalPoint reader1Output.Spacing reader1Output.Origin index) =
      TransformIndexToPhysicalPoint reader1Output.Spacing reader1Output.Origin index)
    (index : IndexType) (hin : reader1Output.LargestPossibleRegion.IsInside index = true) :
    field.GetPixel index =
      some (List.replicate
        (TransformIndexToPhysicalPoint reader1Output.Spacing reader1Output.Origin
          index).length 0) := by
  obtain ⟨_, _, _, hpix⟩ := generateField_pixel reader1Output TransformPoint field hgen
  rw [hpix index hin, displacementAt, hfix index hin, DeformationVectorType.ofDifference,
    PointType.sub_self_eq, List.map_replicate, narrowToFloat_zero]

/-- The generator has no test of its own on the landmarks: lines 366-369 end in the
exception of the fit exactly when `ComputeWMatrix` raises on the landmarks it is given. -/
theorem fromImages_fit_exception_iff (env : Environment) (ipp1Reader ipp2Reader : IPPReaderType)
    (nrofpoints : ℕ) (reader1Output reader2Output : ImageInformation)
    (outputImageFileName kernelName : String) (stiffness : ℚ) (trace : List Stage) :
    (DeformationFieldGenerator.fromImages env ipp1Reader ipp2Reader nrofpoints reader1Output
        reader2Output outputImageFileName kernelName stiffness trace).result =
        Result.threw ExceptionObject.kernelTransform ↔
      ∃ kernel, kernelOfName kernelName = some kernel ∧
        env.ComputeWMatrix kernel stiffness
          (convertIfIndices env ipp1Reader reader1Output nrofpoints)
          (convertIfIndices env ipp2Reader reader2Output nrofpoints) = none := by
  rcases fromImages_shape env ipp1Reader ipp2Reader nrofpoints reader1Output reader2Output
    outputImageFileName kernelName stiffness trace with
    ⟨hk, e⟩ | ⟨k, hk, hc, e⟩ | ⟨k, T, f, hk, hc, _, e⟩ <;> rw [e]
  · simp [hk]
  · simp only [true_iff]
    exact ⟨k, hk, hc⟩
  · constructor
    · intro h
      simp only [] at h
      split at h <;> simp at h
    · rintro ⟨k2, hk2, hc2⟩
      rw [hk] at hk2
      simp only [Option.some.injEq] at hk2
      subst hk2
      rw [hc] at hc2
      simp at hc2

/-- The worked scenario of the spec (grid of 2 x 2 cells, landmarks (0,0) and (1,1) on both
sides, thin-plate spline, stiffness 0) in any environment that holds its files: the run
ends in the exception of the fit, without a writer call, when `ComputeWMatrix` raises on
these two landmarks, and it completes when `ComputeWMatrix` returns a transform. -/
theorem worked_scenario_depends_on_fit (env : Environment)
    (hpoints : env.ippReader 2 "points.txt" = ⟨false, false, 2, [[0, 0], [1, 1]]⟩)
    (himage : env.imageInformation "grid.mhd" = some fixedImage)
    (hwriter : env.writerThrows "out.mhd" = false) :
    (env.ComputeWMatrix KernelTransformType.TPSTransformType 0 [[0, 0], [1, 1]]
        [[0, 0], [1, 1]] = none →
      (DeformationFieldGenerator env 2 "grid.mhd" "" "points.txt" "points.txt" "out.mhd" "TPS"
        0).result = Result.threw ExceptionObject.kernelTransform ∧
      ∀ stage ∈ (DeformationFieldGenerator env 2 "grid.mhd" "" "points.txt" "points.txt"
        "out.mhd" "TPS" 0).trace, stage.isWrite = false) ∧
    (∀ TransformPoint,
      env.ComputeWMatrix KernelTransformType.TPSTransformType 0 [[0, 0], [1, 1]]
        [[0, 0], [1, 1]] = some TransformPoint →
      (DeformationFieldGenerator env 2 "grid.mhd" "" "points.txt" "points.txt" "out.mhd" "TPS"
        0).result = Result.completed) := by
  have hk : kernelOfName "TPS" = some KernelTransformType.TPSTransformType := by decide
  constructor
  · intro hfit
    have hres : (DeformationFieldGenerator env 2 "grid.mhd" "" "points.txt" "points.txt"
        "out.mhd" "TPS" 0).result = Result.threw ExceptionObject.kernelTransform := by
      simp [DeformationFieldGenerator, DeformationFieldGenerator.fromImages, hpoints, himage,
        hk, convertIfIndices, hfit]
    refine ⟨hres, ?_⟩
    rcases DeformationFieldGenerator_write env 2 "grid.mhd" "" "points.txt" "points.txt"
      "out.mhd" "TPS" 0 with ⟨hno, _⟩ | ⟨_, _, _, _, _, _, _, _, h⟩
    · exact hno
    · rcases h with h | h <;> rw [hres] at h <;> simp at h
  · intro TransformPoint hfit
    simp [DeformationFieldGenerator, DeformationFieldGenerator.fromImages, hpoints, himage,
      hk, convertIfIndices, hfit, generateField_eq, hwriter]

/-! ### pxextractslice -/

/-- Past the early returns, the two sanity checks of lines 222-243 and the call of `Run`:
`main` first reads `imagesize[ which_dimension ]`, and an instance that reaches `Run` has
a slice number that is at most, not below, that entry. -/
theorem extractslice_main_checks (env : ExtractSliceEnvironment) (parser : ExtractSliceParser)
    (properties : ImageProperties)
    (hp : parser.CheckForRequiredArguments = ReturnValue.PASSED)
    (hi : env.imageProperties (GetCommandLineArgument parser.inFlag "") = some properties)
    (hc : properties.NumberOfComponents ≤ 1) :
    (properties.imagesize.length ≤ GetCommandLineArgument parser.d 2 →
      extractslice.main env parser =
        ⟨none, ExtractSliceEnd.imagesizeReadOutOfBounds (GetCommandLineArgument parser.d 2)
          properties.imagesize.length⟩) ∧
    (∀ created, (extractslice.main env parser).ran = some created →
      created.m_Slicenumber = GetCommandLineArgument parser.sn 0 ∧
      created.m_WhichDimension = GetCommandLineArgument parser.d 2 ∧
      ∃ slices, properties.imagesize.get? created.m_WhichDimension = some slices ∧
        created.m_Slicenumber ≤ slices ∧
        created.m_WhichDimension ≤ DimensionMinusOne properties.Dimension) := by
  have hc2 : ¬ properties.NumberOfComponents > 1 := by omega
  constructor
  · intro hlen
    have hget : properties.imagesize[GetCommandLineArgument parser.d 2]? = none :=
      List.getElem?_eq_none hlen
    simp [extractslice.main, hp, itktools.GetImageProperties, hi, hc2, hget]
  · intro created hran
    cases hget : properties.imagesize[GetCommandLineArgument parser.d 2]? with
    | none => simp [extractslice.main, hp, itktools.GetImageProperties, hi, hc2, hget] at hran
    | some slices =>
      by_cases hsn : GetCommandLineArgument parser.sn 0 > slices
      · simp [extractslice.main, hp, itktools.GetImageProperties, hi, hc2, hget, hsn] at hran
      · by_cases hd : GetCommandLineArgument parser.d 2 > DimensionMinusOne properties.Dimension
        · simp [extractslice.main, hp, itktools.GetImageProperties, hi, hc2, hget, hsn, hd]
            at hran
        · have hsn2 : ¬ slices < GetCommandLineArgument parser.sn 0 := hsn
          have hd2 : ¬ DimensionMinusOne properties.Dimension <
              GetCommandLineArgument parser.d 2 := hd
          simp only [extractslice.main, hp, itktools.GetImageProperties, hi, hc2,
            List.get?_eq_getElem?, hget, gt_iff_lt, hsn2, hd2, if_false, ne_eq,
            not_true_eq_false] at hran
          generalize assignIfNullSlice _ _ = probed at hran
          cases probed with
          | none => simp at hran
          | some instance_ =>
            simp only [] at hran
            split_ifs at hran <;>
            · simp only [Option.some.injEq] at hran
              subst hran
              exact ⟨rfl, rfl, slices, by rw [List.get?_eq_getElem?]; exact hget,
                Nat.le_of_not_lt hsn2, Nat.le_of_not_lt hd2⟩

/-- C14: the claim that a slice number passing the sanity check is below the number of
slices fails on the code, whose check (line 223) is `slicenumber > imagesize[ which_dimension ]`.
On an image of 4 x 4 x 4 pixels (slices 0 to 3) the slice number 4 passes the check and
reaches `Run` with `m_Slicenumber = 4`; `main` then returns 0 unless `Run` raises.  The
slice number 5 is rejected with 1 and reaches no `Run`. -/
theorem C14_slice_number_equal_to_size_reaches_Run
    (RunThrows : ITKToolsExtractSliceBase → Bool) :
    ((sliceEnv RunThrows).imageProperties "volume.mhd").map
        (fun properties => properties.imagesize.get? 2) = some (some 4) ∧
    (extractslice.main (sliceEnv RunThrows) (sliceParser "volume.mhd" 4 "4" none)).ran =
      some ⟨ComponentType.SHORT, "volume.mhd", "image_slice_z=4.mhd", 4, 2⟩ ∧
    ((extractslice.main (sliceEnv RunThrows) (sliceParser "volume.mhd" 4 "4" none)).ended =
        ExtractSliceEnd.returned 0 ↔
      RunThrows ⟨ComponentType.SHORT, "volume.mhd", "image_slice_z=4.mhd", 4, 2⟩ = false) ∧
    (extractslice.main (sliceEnv RunThrows) (sliceParser "volume.mhd" 5 "5" none)) =
      ⟨none, ExtractSliceEnd.returned 1⟩ := by
  refine ⟨by simp [sliceEnv], ?_, ?_, ?_⟩
  · cases h : RunThrows ⟨ComponentType.SHORT, "volume.mhd", "image_slice_z=4.mhd", 4, 2⟩ <;>
      simp [extractslice.main, sliceEnv, sliceParser, GetCommandLineArgument,
        itktools.GetImageProperties, DimensionMinusOne, ITKToolsExtractSlice.New,
        itktools.IsType, assignIfNullSlice, h]
  · cases h : RunThrows ⟨ComponentType.SHORT, "volume.mhd", "image_slice_z=4.mhd", 4, 2⟩ <;>
      simp [extractslice.main, sliceEnv, sliceParser, GetCommandLineArgument,
        itktools.GetImageProperties, DimensionMinusOne, ITKToolsExtractSlice.New,
        itktools.IsType, assignIfNullSlice, h]
  · simp [extractslice.main, sliceEnv, sliceParser, GetCommandLineArgument,
      itktools.GetImageProperties]

/-- C15: the claim that the dimension check guards the read of `imagesize` fails on the
code, which reads `imagesize[ which_dimension ]` (line 223) before it compares
`which_dimension` with `Dimension - 1` (line 235).  With `-d 3` on a 3D image, and with the
default 2 on a 2D image, `which_dimension > Dimension - 1` and `main` reads `imagesize` at
an index equal to its length. -/
theorem C15_imagesize_read_before_dimension_check :
    DimensionMinusOne 3 < 3 ∧
    extractslice.main (sliceEnv (fun _ => false)) (sliceParser "volume.mhd" 0 "0" (some 3)) =
      ⟨none, ExtractSliceEnd.imagesizeReadOutOfBounds 3 3⟩ ∧
    DimensionMinusOne 2 < 2 ∧
    extractslice.main (sliceEnv (fun _ => false)) (sliceParser "plane.mhd" 0 "0" none) =
      ⟨none, ExtractSliceEnd.imagesizeReadOutOfBounds 2 2⟩ := by
  refine ⟨by decide, by decide, by decide, by decide⟩

end ITKTools
